import Mathlib

/-!
# Selection and filtering of log records in the info editor

A shallow embedding of `source/blender/editors/space_info/info_clog.c`:
the visibility predicate `is_clog_record_visible`, the bulk selection helper
`log_records_select_all`, the pick operator `select_clog_pick_exec`, the box
select operator `box_select_exec` and the filter builder `clog_filter_exec`
with `is_filter_duplicate`, followed by theorems about them.

Conventions of the embedding.

* The doubly linked record list is a `List CLG_LogRecord`; a record pointer is
  a position in that list, `NULL` is `none`. Walking `next` from a record is
  walking the suffix of the list that starts there; walking `prev` from a
  record is walking the reversed prefix that ends there.
* Flag words are natural numbers and the C operators `&`, `|`, `^` are
  `&&&`, `|||`, `^^^`. A test `if (x & BIT)` is `(x &&& BIT) != 0`.
* The string matcher `info_match_string_filter` lives in another file; every
  function that calls it takes it as the parameter `mt`.
* `info_area_tag_redraw` only asks the window manager for a repaint and is
  left out.
* A function whose C code can read or write outside its data (the range loop of
  the box select, the separator scan and the copy of the File mode of the filter
  builder) returns an `Option`, with `none` for that case.
* The results of `info_text_pick` and the functions `BLI_path_basename` and
  `info_match_string_filter` come from other files and are arguments.
-/

namespace InfoClog

/-! ## Data model -/

/-- The type of `info_match_string_filter(pattern, target, use_match_case, use_glob,
use_reverse_match)`, which is defined outside this file. -/
abbrev Matcher := String → String → Bool → Bool → Bool → Bool

/-- The severities of `enum CLG_Severity`, in declaration order. -/
inductive CLG_Severity where
  | DEBUG
  | VERBOSE
  | INFO
  | WARN
  | ERROR
  | FATAL
  deriving DecidableEq, Repr

/-- The fields of `CLG_LogRecord` read or written by this file. `type_identifier`
stands for `record->type->identifier`. -/
structure CLG_LogRecord where
  severity : CLG_Severity
  verbosity : Int
  type_identifier : String
  file_line : String
  function : String
  message : String
  flag : Nat
  deriving DecidableEq, Repr

/-- One filter criterion, `SpaceInfoFilter`: a pattern and its flag word. -/
structure SpaceInfoFilter where
  search_string : String
  flag : Nat
  deriving DecidableEq, Repr

/-- The fields of `SpaceInfo` read or written by this file. -/
structure SpaceInfo where
  search_filter : SpaceInfoFilter
  log_severity_mask : Nat
  use_log_filter : Nat
  filter_log_level : Int
  filter_log_type : List SpaceInfoFilter
  filter_log_function : List SpaceInfoFilter
  filter_log_file_line : List SpaceInfoFilter
  active_index : Int
  deriving DecidableEq, Repr

/-! ## Constants declared in headers -/

/-- Modelled from the spec: the header that declares `CLG_SELECT` is not among the
sources. The spec gives every record one boolean selection flag, so `CLG_SELECT`
is a single bit of `flag`, here the lowest one. -/
def CLG_SELECT : Nat := 1

/-- Modelled from the spec: the severity mask constants are declared in a header
that is not among the sources. The spec calls the mask a bitset over the six
severity values; each severity owns the bit of its position in the enum. -/
def INFO_CLOG_SEVERITY_DEBUG : Nat := 1

/-- Modelled from the spec: see `INFO_CLOG_SEVERITY_DEBUG`. -/
def INFO_CLOG_SEVERITY_VERBOSE : Nat := 2

/-- Modelled from the spec: see `INFO_CLOG_SEVERITY_DEBUG`. -/
def INFO_CLOG_SEVERITY_INFO : Nat := 4

/-- Modelled from the spec: see `INFO_CLOG_SEVERITY_DEBUG`. -/
def INFO_CLOG_SEVERITY_WARN : Nat := 8

/-- Modelled from the spec: see `INFO_CLOG_SEVERITY_DEBUG`. -/
def INFO_CLOG_SEVERITY_ERROR : Nat := 16

/-- Modelled from the spec: see `INFO_CLOG_SEVERITY_DEBUG`. -/
def INFO_CLOG_SEVERITY_FATAL : Nat := 32

/-- Modelled from the spec: the flag bits of a filter criterion (`useCase`, `useGlob`,
`invert`) are declared in a header that is not among the sources; each is one bit of
`SpaceInfoFilter.flag`. -/
def INFO_FILTER_USE_MATCH_CASE : Nat := 1

/-- Modelled from the spec: see `INFO_FILTER_USE_MATCH_CASE`. -/
def INFO_FILTER_USE_GLOB : Nat := 2

/-- Modelled from the spec: see `INFO_FILTER_USE_MATCH_CASE`. -/
def INFO_FILTER_USE_MATCH_REVERSE : Nat := 4

/-- Modelled from the spec: the enable flags of the verbosity cutoff and of the three
filter categories are declared in a header that is not among the sources; each is one
bit of `SpaceInfo.use_log_filter`. -/
def INFO_FILTER_CLOG_LEVEL : Nat := 1

/-- Modelled from the spec: see `INFO_FILTER_CLOG_LEVEL`. -/
def INFO_FILTER_CLOG_TYPE : Nat := 2

/-- Modelled from the spec: see `INFO_FILTER_CLOG_LEVEL`. -/
def INFO_FILTER_CLOG_FUNCTION : Nat := 4

/-- Modelled from the spec: see `INFO_FILTER_CLOG_LEVEL`. -/
def INFO_FILTER_CLOG_FILE_LINE : Nat := 8

/-- Modelled from the spec: the selection actions of `ED_select_utils.h`, which is not
among the sources; four distinct values TOGGLE, SELECT, DESELECT, INVERT. -/
def SEL_TOGGLE : Int := 0

/-- Modelled from the spec: see `SEL_TOGGLE`. -/
def SEL_SELECT : Int := 1

/-- Modelled from the spec: see `SEL_TOGGLE`. -/
def SEL_DESELECT : Int := 2

/-- Modelled from the spec: see `SEL_TOGGLE`. -/
def SEL_INVERT : Int := 3

/-- Modelled from the spec: the sentinel index of a click that missed all rows is
declared in a header that is not among the sources. It is the lower end of the range
of the `clog_index` property, whose default is 0, and it names no record. -/
def INDEX_INVALID : Int := -1

/-- Modelled from the spec: the operator return codes of `WM_types.h`, which is not
among the sources; two distinct outcomes, aborted and success. -/
def OPERATOR_CANCELLED : Int := 2

/-- Modelled from the spec: see `OPERATOR_CANCELLED`. -/
def OPERATOR_FINISHED : Int := 4

/-! ## Visibility -/

/-- The call `info_match_string_filter(filter->search_string, target,
filter->flag & INFO_FILTER_USE_MATCH_CASE, filter->flag & INFO_FILTER_USE_GLOB,
filter->flag & INFO_FILTER_USE_MATCH_REVERSE)` made at every filter test of
`is_clog_record_visible`. -/
def filter_matches (mt : Matcher) (filter : SpaceInfoFilter) (target : String) : Bool :=
  mt filter.search_string target
    ((filter.flag &&& INFO_FILTER_USE_MATCH_CASE) != 0)
    ((filter.flag &&& INFO_FILTER_USE_GLOB) != 0)
    ((filter.flag &&& INFO_FILTER_USE_MATCH_REVERSE) != 0)

/-- The body of one `LISTBASE_FOREACH` loop of `is_clog_record_visible`: `false` as soon
as an entry fails to match (the loop returns), `true` when the list is exhausted. -/
def filter_list_passes (mt : Matcher) (target : String) : List SpaceInfoFilter → Bool
  | [] => true
  | filter :: rest =>
    if !(filter_matches mt filter target) then false
    else filter_list_passes mt target rest

/-- Embedding of `is_clog_record_visible` (lines 51-136), check by check. -/
def is_clog_record_visible (mt : Matcher) (record : CLG_LogRecord) (sinfo : SpaceInfo) :
    Bool :=
  /- general search -/
  if !(filter_matches mt sinfo.search_filter record.message) then false
  /- filter log severity (flag like) -/
  else if (sinfo.log_severity_mask &&& INFO_CLOG_SEVERITY_DEBUG) == 0 &&
      record.severity == CLG_Severity.DEBUG then false
  else if (sinfo.log_severity_mask &&& INFO_CLOG_SEVERITY_VERBOSE) == 0 &&
      record.severity == CLG_Severity.VERBOSE then false
  else if (sinfo.log_severity_mask &&& INFO_CLOG_SEVERITY_INFO) == 0 &&
      record.severity == CLG_Severity.INFO then false
  else if (sinfo.log_severity_mask &&& INFO_CLOG_SEVERITY_WARN) == 0 &&
      record.severity == CLG_Severity.WARN then false
  else if (sinfo.log_severity_mask &&& INFO_CLOG_SEVERITY_ERROR) == 0 &&
      record.severity == CLG_Severity.ERROR then false
  else if (sinfo.log_severity_mask &&& INFO_CLOG_SEVERITY_FATAL) == 0 &&
      record.severity == CLG_Severity.FATAL then false
  /- filter verbosity -/
  else if (sinfo.use_log_filter &&& INFO_FILTER_CLOG_LEVEL) != 0 &&
      decide (sinfo.filter_log_level < record.verbosity) then false
  /- filter log type -/
  else if (sinfo.use_log_filter &&& INFO_FILTER_CLOG_TYPE) != 0 &&
      !(filter_list_passes mt record.type_identifier sinfo.filter_log_type) then false
  /- filter log function -/
  else if (sinfo.use_log_filter &&& INFO_FILTER_CLOG_FUNCTION) != 0 &&
      !(filter_list_passes mt record.function sinfo.filter_log_function) then false
  /- filter file line -/
  else if (sinfo.use_log_filter &&& INFO_FILTER_CLOG_FILE_LINE) != 0 &&
      !(filter_list_passes mt record.file_line sinfo.filter_log_file_line) then false
  else true

/-- The bit of the severity mask that `is_clog_record_visible` tests for a severity. -/
def severity_bit : CLG_Severity → Nat
  | .DEBUG => INFO_CLOG_SEVERITY_DEBUG
  | .VERBOSE => INFO_CLOG_SEVERITY_VERBOSE
  | .INFO => INFO_CLOG_SEVERITY_INFO
  | .WARN => INFO_CLOG_SEVERITY_WARN
  | .ERROR => INFO_CLOG_SEVERITY_ERROR
  | .FATAL => INFO_CLOG_SEVERITY_FATAL

/-! ## Selection flags -/

/-- The value of `x & ~bits` on flag words: natural numbers have no complement, so
the bits of `bits` are removed from `x` by xor with the bits they share. -/
def and_not (x bits : Nat) : Nat := x ^^^ (x &&& bits)

/-- The test `record->flag & CLG_SELECT`. -/
def is_selected (record : CLG_LogRecord) : Bool := (record.flag &&& CLG_SELECT) != 0

/-- The statement `record->flag |= CLG_SELECT`. -/
def flag_set (record : CLG_LogRecord) : CLG_LogRecord :=
  { record with flag := record.flag ||| CLG_SELECT }

/-- The statement `record->flag &= ~CLG_SELECT`. -/
def flag_clear (record : CLG_LogRecord) : CLG_LogRecord :=
  { record with flag := and_not record.flag CLG_SELECT }

/-- The statement `record->flag ^= CLG_SELECT`. -/
def flag_toggle (record : CLG_LogRecord) : CLG_LogRecord :=
  { record with flag := record.flag ^^^ CLG_SELECT }

/-! ## Select all -/

/-- The first loop of `log_records_select_all` (lines 141-147), run when the action is
`SEL_TOGGLE`. The argument is the record list from `records->last` along `prev`. The
result is the resolved action: `SEL_DESELECT` at the first visible selected record
(the `break`), `SEL_SELECT` when the walk ends without one. -/
def toggle_scan (mt : Matcher) (sinfo : SpaceInfo) : List CLG_LogRecord → Int
  | [] => SEL_SELECT
  | record :: rest =>
    if is_clog_record_visible mt record sinfo && is_selected record then SEL_DESELECT
    else toggle_scan mt sinfo rest

/-- The body of the second loop of `log_records_select_all` (lines 151-165) for one
record. An action outside the three cases reaches `BLI_assert(0)`, which changes
nothing. -/
def select_all_step (mt : Matcher) (sinfo : SpaceInfo) (action : Int)
    (record : CLG_LogRecord) : CLG_LogRecord :=
  if is_clog_record_visible mt record sinfo then
    if action = SEL_SELECT then flag_set record
    else if action = SEL_DESELECT then flag_clear record
    else if action = SEL_INVERT then flag_toggle record
    else record
  else record

/-- The second loop of `log_records_select_all` (lines 150-166) over the record list
from `records->last` along `prev`. -/
def select_all_loop (mt : Matcher) (sinfo : SpaceInfo) (action : Int) :
    List CLG_LogRecord → List CLG_LogRecord
  | [] => []
  | record :: rest =>
    select_all_step mt sinfo action record :: select_all_loop mt sinfo action rest

/-- Embedding of `log_records_select_all` (lines 138-167). Both loops start at
`records->last` and follow `prev`, that is, they walk `records.reverse`. -/
def log_records_select_all (mt : Matcher) (records : List CLG_LogRecord)
    (sinfo : SpaceInfo) (action : Int) : List CLG_LogRecord :=
  let action :=
    if action = SEL_TOGGLE then toggle_scan mt sinfo records.reverse else action
  (select_all_loop mt sinfo action records.reverse).reverse

/-! ## Pick -/

/-- Modelled from the spec: `BLI_findlink` belongs to the list library, which is not
among the sources. It locates the record at position `number` of the full sequence; a
negative number, or one past the end, resolves to no record (`NULL`). -/
def BLI_findlink (records : List CLG_LogRecord) (number : Int) : Option CLG_LogRecord :=
  if 0 ≤ number then records[number.toNat]? else none

/-- The loop of lines 209-211,
`for (i = record; i && i->prev != active_item; i = i->next) i->flag |= CLG_SELECT;`.
The list argument is the suffix of the record list that starts at `i`, `pos` is the
position of `i` in the full list and `active` the position of `active_item`, so that
`i->prev == active_item` exactly when `pos = active + 1`. -/
def range_select_next (active : Nat) : Nat → List CLG_LogRecord → List CLG_LogRecord
  | _, [] => []
  | pos, i :: rest =>
    if pos = active + 1 then i :: rest
    else flag_set i :: range_select_next active (pos + 1) rest

/-- The loop of lines 214-217,
`for (it = record; it && it->next != active_item; it = it->prev) it->flag |= CLG_SELECT;`.
The list argument is the reversed prefix of the record list that ends at `it`, `pos` is
the position of `it` in the full list and `active` the position of `active_item`, so
that `it->next == active_item` exactly when `pos + 1 = active`. -/
def range_select_prev (active : Nat) : Nat → List CLG_LogRecord → List CLG_LogRecord
  | _, [] => []
  | pos, it :: rest =>
    if pos + 1 = active then it :: rest
    else flag_set it :: range_select_prev active (pos - 1) rest

/-- Embedding of `select_clog_pick_exec` (lines 169-238). The operator properties
`clog_index`, `extend`, `extend_range` and `deselect_all` are arguments; the result is
the return code with the record list and the view state after the call.
`BLI_findindex(records, record)` is the position of the picked record, `clog_index`. -/
def select_clog_pick_exec (mt : Matcher) (records : List CLG_LogRecord) (sinfo : SpaceInfo)
    (clog_index : Int) (extend use_range deselect_all : Bool) :
    Int × List CLG_LogRecord × SpaceInfo :=
  /- click in empty area -/
  if clog_index = INDEX_INVALID then
    (OPERATOR_FINISHED, log_records_select_all mt records sinfo SEL_DESELECT, sinfo)
  else
    match BLI_findlink records clog_index with
    | none => (OPERATOR_CANCELLED, records, sinfo)
    | some _ =>
      let active_item := BLI_findlink records sinfo.active_index
      let is_active_item_selected :=
        match active_item with
        | some item => is_selected item
        | none => false
      let records :=
        if deselect_all then log_records_select_all mt records sinfo SEL_DESELECT
        else records
      match active_item with
      | none =>
        (OPERATOR_FINISHED, records.modify flag_set clog_index.toNat,
          { sinfo with active_index := clog_index })
      | some _ =>
        if use_range then
          if is_active_item_selected then
            if clog_index < sinfo.active_index then
              (OPERATOR_FINISHED,
                records.take clog_index.toNat ++
                  range_select_next sinfo.active_index.toNat clog_index.toNat
                    (records.drop clog_index.toNat),
                sinfo)
            else
              (OPERATOR_FINISHED,
                (range_select_prev sinfo.active_index.toNat clog_index.toNat
                    (records.take (clog_index.toNat + 1)).reverse).reverse ++
                  records.drop (clog_index.toNat + 1),
                sinfo)
          else
            (OPERATOR_FINISHED,
              (log_records_select_all mt records sinfo SEL_DESELECT).modify flag_set
                clog_index.toNat,
              { sinfo with active_index := clog_index })
        else
          let picked_selected :=
            match records[clog_index.toNat]? with
            | some record => is_selected record
            | none => false
          if extend && picked_selected && clog_index == sinfo.active_index then
            (OPERATOR_FINISHED, records.modify flag_clear clog_index.toNat, sinfo)
          else
            (OPERATOR_FINISHED, records.modify flag_set clog_index.toNat,
              { sinfo with active_index := clog_index })

/-! ## Box select -/

/-- Modelled from the spec: the selection modes of `ED_select_utils.h`, which is not
among the sources; the modes ADD, SUB, SET and the two remaining ones, all distinct. -/
def SEL_OP_ADD : Int := 1

/-- Modelled from the spec: see `SEL_OP_ADD`. -/
def SEL_OP_SUB : Int := 2

/-- Modelled from the spec: see `SEL_OP_ADD`. -/
def SEL_OP_SET : Int := 3

/-- Modelled from the spec: see `SEL_OP_ADD`. -/
def SEL_OP_AND : Int := 4

/-- Modelled from the spec: see `SEL_OP_ADD`. -/
def SEL_OP_XOR : Int := 5

/-- Modelled from the spec: the macro `SEL_OP_USE_PRE_DESELECT` of `ED_select_utils.h`,
which is not among the sources: the mode requires the selection to be cleared first
exactly when it has SET semantics. -/
def SEL_OP_USE_PRE_DESELECT (sel_op : Int) : Bool := sel_op == SEL_OP_SET

/-- Modelled from the spec: the macro `SET_FLAG_FROM_TEST(value, test, flag)` of
`BLI_utildefines.h`, which is not among the sources: it sets the bits of `flag` in
`value` when `test` holds and clears them otherwise (select, or deselect for SUB). -/
def SET_FLAG_FROM_TEST (value : Nat) (test : Bool) (flag : Nat) : Nat :=
  if test then value ||| flag else and_not value flag

/-- The loop of lines 340-345 of `box_select_exec`, from `records->first` along `next`:
visible records lose the selection bit, the others are skipped (`continue`). -/
def box_pre_deselect (mt : Matcher) (sinfo : SpaceInfo) :
    List CLG_LogRecord → List CLG_LogRecord
  | [] => []
  | record :: rest =>
    (if !(is_clog_record_visible mt record sinfo) then record else flag_clear record) ::
      box_pre_deselect mt sinfo rest

/-- The loop of lines 359-364 of `box_select_exec`: the position of the first visible
record from `records->first` along `next`, or `none` when the walk ends (`record_min`
stays `NULL`). The list is the suffix that starts at position `pos`. -/
def find_min (mt : Matcher) (sinfo : SpaceInfo) : Nat → List CLG_LogRecord → Option Nat
  | _, [] => none
  | pos, record :: rest =>
    if is_clog_record_visible mt record sinfo then some pos
    else find_min mt sinfo (pos + 1) rest

/-- The loop of lines 369-374 of `box_select_exec`: the position of the first visible
record from `records->last` along `prev`, or `none` when the walk ends. The list is the
reversed prefix that ends at the current record, whose position is the number of
records before it. -/
def find_max (mt : Matcher) (sinfo : SpaceInfo) : List CLG_LogRecord → Option Nat
  | [] => none
  | record :: rest =>
    if is_clog_record_visible mt record sinfo then some rest.length
    else find_max mt sinfo rest

/-- The body of the loop of lines 381-386 of `box_select_exec` for one record: a record
that is not visible is skipped (`continue`), a visible one gets
`SET_FLAG_FROM_TEST(record->flag, select, CLG_SELECT)`. -/
def box_select_step (mt : Matcher) (sinfo : SpaceInfo) (select : Bool)
    (record : CLG_LogRecord) : CLG_LogRecord :=
  if !(is_clog_record_visible mt record sinfo) then record
  else { record with flag := SET_FLAG_FROM_TEST record.flag select CLG_SELECT }

/-- The loop of lines 381-386 of `box_select_exec`,
`for (record = record_min; record != record_max->next; record = record->next)`.
The list is the suffix of the record list that starts at `record`, `pos` is the
position of `record` and `max` the position of `record_max`, so that
`record == record_max->next` exactly when `pos = max + 1` (past the end when
`record_max` is the last record). When the walk runs off the list before it meets
`record_max->next` the body dereferences `NULL`: the result is `none`. -/
def box_select_loop (mt : Matcher) (sinfo : SpaceInfo) (select : Bool) (max : Nat) :
    Nat → List CLG_LogRecord → Option (List CLG_LogRecord)
  | pos, [] => if pos = max + 1 then some [] else none
  | pos, record :: rest =>
    if pos = max + 1 then some (record :: rest)
    else
      match box_select_loop mt sinfo select max (pos + 1) rest with
      | none => none
      | some tail =>
        some (box_select_step mt sinfo select record :: tail)

/-- Embedding of `box_select_exec` (lines 327-391). `sel_op` is the operator property
`mode`. `pick_min` and `pick_max` are the results of the two calls of `info_text_pick`,
which is defined outside this file: the position of the record under the top and under
the bottom bound of the rectangle, `none` for `NULL`. The result is the return code
with the record list after the call, or `none` when the range loop runs off the list.
The view state is not written. -/
def box_select_exec (mt : Matcher) (records : List CLG_LogRecord) (sinfo : SpaceInfo)
    (sel_op : Int) (pick_min pick_max : Option Nat) : Option (Int × List CLG_LogRecord) :=
  let select := sel_op != SEL_OP_SUB
  let records :=
    if SEL_OP_USE_PRE_DESELECT sel_op then box_pre_deselect mt sinfo records else records
  if pick_min.isNone && pick_max.isNone then
    some (OPERATOR_FINISHED, log_records_select_all mt records sinfo SEL_DESELECT)
  else
    /- get the first record if none found -/
    let record_min :=
      match pick_min with
      | none => find_min mt sinfo 0 records
      | some t => some t
    let record_max :=
      match pick_max with
      | none => find_max mt sinfo records.reverse
      | some b => some b
    match record_min, record_max with
    | some t, some b =>
      match box_select_loop mt sinfo select b t (records.drop t) with
      | none => none
      | some tail => some (OPERATOR_FINISHED, records.take t ++ tail)
    | _, _ => some (OPERATOR_CANCELLED, records)

/-! ## Sample data -/

/-- A matcher for the examples: plain string equality, negated when the invert
argument is set; an empty pattern matches everything. -/
def sample_matcher : Matcher := fun pattern target _ _ invert =>
  if pattern = "" then true else (pattern == target) != invert

/-- A view state for the examples: empty search, all six severities shown, no
category filter enabled, active index on the first record. -/
def sample_view : SpaceInfo :=
  { search_filter := { search_string := "", flag := 0 }
    log_severity_mask := 63
    use_log_filter := 0
    filter_log_level := 0
    filter_log_type := []
    filter_log_function := []
    filter_log_file_line := []
    active_index := 0 }

/-- A record for the examples, with the given severity and flag word. -/
def sample_record (severity : CLG_Severity) (flag : Nat) : CLG_LogRecord :=
  { severity := severity
    verbosity := 0
    type_identifier := "wm.operator"
    file_line := "wm_files.c:12"
    function := "wm_file_read"
    message := "read"
    flag := flag }

/-- Two visible records for the examples, the first selected and the second not. -/
def sample_pair : List CLG_LogRecord :=
  [sample_record .INFO 1, sample_record .WARN 0]

/-- Three visible records for the examples: the first not selected, the second and
the third selected. -/
def sample_triple : List CLG_LogRecord :=
  [sample_record .INFO 0, sample_record .WARN 1, sample_record .ERROR 1]

/-- A view state for the examples that hides WARN records (their mask bit is clear),
with the active index on the third record. -/
def sample_view_no_warn : SpaceInfo :=
  { sample_view with log_severity_mask := 55, active_index := 2 }

/-- Three records for the examples: a visible one, not selected; a WARN record, hidden
under `sample_view_no_warn`, not selected; a visible one, selected. -/
def sample_gap : List CLG_LogRecord :=
  [sample_record .INFO 0, sample_record .WARN 0, sample_record .ERROR 1]

/-- Two records for the examples: a WARN record, hidden under `sample_view_no_warn`,
and a visible one, both selected. -/
def sample_hidden_selected : List CLG_LogRecord :=
  [sample_record .WARN 1, sample_record .INFO 1]

/-! ## Filter builder -/

/-- The modes of `enum eClogFilterMode` (lines 542-547), in declaration order. -/
def CLOG_FILTER_FUNCTION : Int := 0

/-- See `CLOG_FILTER_FUNCTION`. -/
def CLOG_FILTER_FILE : Int := 1

/-- See `CLOG_FILTER_FUNCTION`. -/
def CLOG_FILTER_LINE : Int := 2

/-- See `CLOG_FILTER_FUNCTION`. -/
def CLOG_FILTER_LOG_TYPE : Int := 3

/-- Modelled from the spec: `BLI_strncpy(dst, src, maxncpy)` belongs to the string
library, which is not among the sources. The copy holds at most `maxncpy - 1` characters
of `src`, followed by the terminator; this is how the File category keeps only the path
portion in front of the separator. The result is the text left in `dst`; the copy
writes that text and the terminator, and whether they fit the destination array is
tested where the copy is made (`filter_pattern`). -/
def BLI_strncpy (src : String) (maxncpy : Nat) : String :=
  String.mk (src.data.take (maxncpy - 1))

/-- Embedding of `is_filter_duplicate` (lines 549-562): the first entry of the list
that matches the pattern of the new criterion under the entry's own case and glob
flags, without inversion, or `none` (`NULL`). -/
def is_filter_duplicate (mt : Matcher) :
    List SpaceInfoFilter → SpaceInfoFilter → Option SpaceInfoFilter
  | [], _ => none
  | filter_iter :: rest, filter =>
    if mt filter_iter.search_string filter.search_string
        ((filter_iter.flag &&& INFO_FILTER_USE_MATCH_CASE) != 0)
        ((filter_iter.flag &&& INFO_FILTER_USE_GLOB) != 0)
        false then some filter_iter
    else is_filter_duplicate mt rest filter

/-- The loop of lines 582-584,
`while (basename[file_name_len - 1] != ':') file_name_len -= 1;`, by recursion on
`file_name_len`. The result is the value of `file_name_len` when the loop ends. With
`file_name_len = 0` the test reads in front of the string: the result is `none`. -/
def file_name_scan (basename : List Char) : Nat → Option Nat
  | 0 => none
  | n + 1 =>
    if basename[n]? = some ':' then some (n + 1) else file_name_scan basename n

/-- The copy statements of the `switch` of `clog_filter_exec` (lines 578-585, 603, 621
and 639): the text left in `filter->search_string` for a record, by mode.
`path_basename` stands for `BLI_path_basename`, which is defined outside this file, and
`search_string_size` for the size of the array `SpaceInfoFilter.search_string`.

* File: the scan of lines 582-584 gives `file_name_len`, and
  `BLI_strncpy(filter->search_string, basename, file_name_len)` writes
  `file_name_len - 1` characters and the terminator, `file_name_len` bytes, into the
  array. The bound of this copy is `file_name_len`, not the size of the array: with
  `file_name_len > search_string_size` the copy runs past the array and the result is
  `none`, as it is when the scan leaves the string.
* Line, Function, Log type: `STRNCPY` passes the size of the array to `BLI_strncpy`,
  which cuts the text to `search_string_size - 1` characters.
* A mode outside the four copies nothing: `none`. -/
def filter_pattern (path_basename : String → String) (search_string_size : Nat)
    (filter_type : Int) (record : CLG_LogRecord) : Option String :=
  if filter_type = CLOG_FILTER_FILE then
    /- remove line number -/
    match file_name_scan (path_basename record.file_line).data
        (path_basename record.file_line).length with
    | none => none
    | some file_name_len =>
      if file_name_len ≤ search_string_size then
        some (BLI_strncpy (path_basename record.file_line) file_name_len)
      else none
  else if filter_type = CLOG_FILTER_LINE then
    some (BLI_strncpy (path_basename record.file_line) search_string_size)
  else if filter_type = CLOG_FILTER_FUNCTION then
    some (BLI_strncpy record.function search_string_size)
  else if filter_type = CLOG_FILTER_LOG_TYPE then
    some (BLI_strncpy record.type_identifier search_string_size)
  else none

/-- The body of the loop of `clog_filter_exec` (lines 574-657) for one record that is
visible and selected: the `switch` on the mode. In each case the pattern of the new
criterion is the text that `filter_pattern` gives for the mode; the case then runs the
duplicate test on its list, appends the criterion or reports the duplicate, and turns
its enable flag on. `reports` holds the notices of `BKE_reportf`, oldest first. The
result is the view state and the notices after the body, or `none` when the copy of the
File mode reads or writes outside its data (`filter_pattern`). A mode outside the four
cases reaches `BLI_assert(0)`, which changes nothing. -/
def clog_filter_record (mt : Matcher) (path_basename : String → String)
    (search_string_size : Nat) (filter_type : Int) (record : CLG_LogRecord)
    (sinfo : SpaceInfo) (reports : List String) : Option (SpaceInfo × List String) :=
  let flag := INFO_FILTER_USE_MATCH_CASE ||| INFO_FILTER_USE_MATCH_REVERSE
  if filter_type = CLOG_FILTER_FILE then
    match filter_pattern path_basename search_string_size filter_type record with
    | none => none
    | some search_string =>
      let filter : SpaceInfoFilter := { search_string := search_string, flag := flag }
      match is_filter_duplicate mt sinfo.filter_log_file_line filter with
      | none =>
        some ({ sinfo with
                filter_log_file_line := sinfo.filter_log_file_line ++ [filter]
                use_log_filter := sinfo.use_log_filter ||| INFO_FILTER_CLOG_FILE_LINE },
              reports)
      | some filter_dup =>
        some ({ sinfo with
                use_log_filter := sinfo.use_log_filter ||| INFO_FILTER_CLOG_FILE_LINE },
              reports ++ ["File filter: " ++ filter.search_string ++
                " is duplicate of filter: " ++ filter_dup.search_string])
  else if filter_type = CLOG_FILTER_LINE then
    match filter_pattern path_basename search_string_size filter_type record with
    | none => none
    | some search_string =>
      let filter : SpaceInfoFilter := { search_string := search_string, flag := flag }
      match is_filter_duplicate mt sinfo.filter_log_file_line filter with
      | none =>
        some ({ sinfo with
                filter_log_file_line := sinfo.filter_log_file_line ++ [filter]
                use_log_filter := sinfo.use_log_filter ||| INFO_FILTER_CLOG_FILE_LINE },
              reports)
      | some filter_dup =>
        some ({ sinfo with
                use_log_filter := sinfo.use_log_filter ||| INFO_FILTER_CLOG_FILE_LINE },
              reports ++ ["Line filter: " ++ filter.search_string ++
                " is duplicate of filter: " ++ filter_dup.search_string])
  else if filter_type = CLOG_FILTER_FUNCTION then
    match filter_pattern path_basename search_string_size filter_type record with
    | none => none
    | some search_string =>
      let filter : SpaceInfoFilter := { search_string := search_string, flag := flag }
      match is_filter_duplicate mt sinfo.filter_log_function filter with
      | none =>
        some ({ sinfo with
                filter_log_function := sinfo.filter_log_function ++ [filter]
                use_log_filter := sinfo.use_log_filter ||| INFO_FILTER_CLOG_FUNCTION },
              reports)
      | some filter_dup =>
        some ({ sinfo with
                use_log_filter := sinfo.use_log_filter ||| INFO_FILTER_CLOG_FUNCTION },
              reports ++ ["Function filter: " ++ filter.search_string ++
                " is duplicate of filter: " ++ filter_dup.search_string])
  else if filter_type = CLOG_FILTER_LOG_TYPE then
    match filter_pattern path_basename search_string_size filter_type record with
    | none => none
    | some search_string =>
      let filter : SpaceInfoFilter := { search_string := search_string, flag := flag }
      match is_filter_duplicate mt sinfo.filter_log_type filter with
      | none =>
        some ({ sinfo with
                filter_log_type := sinfo.filter_log_type ++ [filter]
                use_log_filter := sinfo.use_log_filter ||| INFO_FILTER_CLOG_TYPE },
              reports)
      | some filter_dup =>
        some ({ sinfo with
                use_log_filter := sinfo.use_log_filter ||| INFO_FILTER_CLOG_TYPE },
              reports ++ ["Function filter: " ++ filter.search_string ++
                " is duplicate of filter: " ++ filter_dup.search_string])
  else some (sinfo, reports)

/-- The loop of `clog_filter_exec` (lines 572-659) from `records->first` along `next`.
Each record is tested against the view state as the records before it have left it. -/
def clog_filter_loop (mt : Matcher) (path_basename : String → String)
    (search_string_size : Nat) (filter_type : Int) :
    List CLG_LogRecord → SpaceInfo → List String → Option (SpaceInfo × List String)
  | [], sinfo, reports => some (sinfo, reports)
  | record :: rest, sinfo, reports =>
    if is_clog_record_visible mt record sinfo && is_selected record then
      match clog_filter_record mt path_basename search_string_size filter_type record sinfo
          reports with
      | none => none
      | some (sinfo2, reports2) =>
        clog_filter_loop mt path_basename search_string_size filter_type rest sinfo2 reports2
    else
      clog_filter_loop mt path_basename search_string_size filter_type rest sinfo reports

/-- Embedding of `clog_filter_exec` (lines 564-664). `filter_type` is the operator
property `method`. The result is the return code with the view state and the notices
after the call; the record list is not written. -/
def clog_filter_exec (mt : Matcher) (path_basename : String → String)
    (search_string_size : Nat) (filter_type : Int) (records : List CLG_LogRecord)
    (sinfo : SpaceInfo) (reports : List String) : Option (Int × SpaceInfo × List String) :=
  match clog_filter_loop mt path_basename search_string_size filter_type records sinfo
      reports with
  | none => none
  | some (sinfo2, reports2) => some (OPERATOR_FINISHED, sinfo2, reports2)

/-- The list to which the `switch` of `clog_filter_exec` adds the new criterion, by
mode: File and Line share the file-line list. -/
def filter_target_list (filter_type : Int) (sinfo : SpaceInfo) : List SpaceInfoFilter :=
  if filter_type = CLOG_FILTER_FILE then sinfo.filter_log_file_line
  else if filter_type = CLOG_FILTER_LINE then sinfo.filter_log_file_line
  else if filter_type = CLOG_FILTER_FUNCTION then sinfo.filter_log_function
  else if filter_type = CLOG_FILTER_LOG_TYPE then sinfo.filter_log_type
  else []

/-- The enable flag that the `switch` of `clog_filter_exec` turns on, by mode. -/
def filter_enable_flag (filter_type : Int) : Nat :=
  if filter_type = CLOG_FILTER_FILE then INFO_FILTER_CLOG_FILE_LINE
  else if filter_type = CLOG_FILTER_LINE then INFO_FILTER_CLOG_FILE_LINE
  else if filter_type = CLOG_FILTER_FUNCTION then INFO_FILTER_CLOG_FUNCTION
  else if filter_type = CLOG_FILTER_LOG_TYPE then INFO_FILTER_CLOG_TYPE
  else 0

/-- A basename function for the examples: the text after the last `/`. -/
def sample_basename (path : String) : String :=
  String.mk (path.data.reverse.takeWhile (fun c => c != '/')).reverse

/-- A view state for the examples: `sample_view` with one function criterion, and the
function category not enabled. -/
def sample_view_function : SpaceInfo :=
  { sample_view with
    filter_log_function := [{ search_string := "wm_file_read", flag := 5 }] }

/-- A view state for the examples: `sample_view` with one file-line criterion, and the
file-line category not enabled. -/
def sample_view_file : SpaceInfo :=
  { sample_view with
    filter_log_file_line := [{ search_string := "wm_files.c", flag := 5 }] }

/-- A record apart from its flag word: the fields that no selection operation
writes. -/
def without_flag (record : CLG_LogRecord) : CLG_LogRecord :=
  { record with flag := 0 }

/-- A matcher for the examples: plain string equality in which an empty pattern matches
nothing; the invert argument negates the result in every case. -/
def strict_matcher : Matcher := fun pattern target _ _ invert =>
  (pattern != "" && pattern == target) != invert

/-- A view state for the examples under `strict_matcher`: `sample_view` with the search
pattern `read`, the message of the sample records. -/
def sample_view_strict : SpaceInfo :=
  { sample_view with search_filter := { search_string := "read", flag := 0 } }

/-- Two visible selected records for the examples whose function field is empty. -/
def sample_no_function : List CLG_LogRecord :=
  [{ sample_record .INFO 1 with function := "" },
   { sample_record .WARN 1 with function := "" }]

/-- A visible selected record for the examples whose function name has 70 characters. -/
def sample_long_function : CLG_LogRecord :=
  { sample_record .INFO 1 with
    function := "wm_operator_with_a_rather_long_name_that_does_not_fit_the_pattern_arr" ++ "a" }

/-- A visible selected record for the examples whose `file_line` has a file name of
82 characters in front of the separator. -/
def sample_long_path : CLG_LogRecord :=
  { sample_record .INFO 1 with
    file_line :=
      "source/blender/" ++
      "source_file_with_a_name_that_is_much_longer_than_the_pattern_array_can_ever_hold.c" ++
      ":12" }

/-! ## Theorems -/

theorem filter_list_passes_iff (mt : Matcher) (target : String) (l : List SpaceInfoFilter) :
    filter_list_passes mt target l = true ↔
      ∀ filter ∈ l, filter_matches mt filter target = true := by
  induction l with
  | nil => simp [filter_list_passes]
  | cons f rest ih =>
    simp only [filter_list_passes, List.mem_cons, forall_eq_or_imp]
    by_cases hf : filter_matches mt f target = true
    · simp [hf, ih]
    · simp [hf]

/-! ### Flag words -/

theorem and_not_testBit (x bits i : Nat) :
    (and_not x bits).testBit i = (x.testBit i && !bits.testBit i) := by
  unfold and_not
  rw [Nat.testBit_xor, Nat.testBit_and]
  cases x.testBit i <;> cases bits.testBit i <;> rfl

theorem and_two_pow_eq_zero_iff (x k : Nat) : (x &&& 2 ^ k) = 0 ↔ x.testBit k = false := by
  constructor
  · intro h
    have h1 := Nat.testBit_and x (2 ^ k) k
    rw [h, Nat.zero_testBit, Nat.testBit_two_pow_self, Bool.and_true] at h1
    exact h1.symm
  · intro h
    apply Nat.eq_of_testBit_eq
    intro i
    rw [Nat.testBit_and, Nat.zero_testBit, Nat.testBit_two_pow]
    by_cases hik : k = i
    · subst hik; simp [h]
    · simp [hik]

theorem is_selected_eq_testBit (r : CLG_LogRecord) : is_selected r = r.flag.testBit 0 := by
  have h := and_two_pow_eq_zero_iff r.flag 0
  unfold is_selected CLG_SELECT
  cases hb : r.flag.testBit 0
  · have := h.2 hb
    simp at this
    simp [this]
  · have : ¬ (r.flag &&& 2 ^ 0) = 0 := fun h0 => by
      rw [h.1 h0] at hb; exact Bool.noConfusion hb
    simp at this
    simp [this]

theorem is_selected_flag_set (r : CLG_LogRecord) : is_selected (flag_set r) = true := by
  rw [is_selected_eq_testBit]
  show (r.flag ||| 1).testBit 0 = true
  rw [Nat.testBit_or, Nat.testBit_one_zero]
  cases r.flag.testBit 0 <;> rfl

theorem is_selected_flag_clear (r : CLG_LogRecord) : is_selected (flag_clear r) = false := by
  rw [is_selected_eq_testBit]
  show (and_not r.flag 1).testBit 0 = false
  rw [and_not_testBit, Nat.testBit_one_zero]
  cases r.flag.testBit 0 <;> rfl

theorem is_selected_flag_toggle (r : CLG_LogRecord) :
    is_selected (flag_toggle r) = !is_selected r := by
  rw [is_selected_eq_testBit, is_selected_eq_testBit]
  show (r.flag ^^^ 1).testBit 0 = !r.flag.testBit 0
  rw [Nat.testBit_xor, Nat.testBit_one_zero]
  cases r.flag.testBit 0 <;> rfl

/-! ### Visibility as one conjunction -/

/-- The chain of early returns of `is_clog_record_visible` as a single conjunction. -/
theorem visible_eq (mt : Matcher) (r : CLG_LogRecord) (v : SpaceInfo) :
    is_clog_record_visible mt r v =
      (filter_matches mt v.search_filter r.message &&
        ((v.log_severity_mask &&& severity_bit r.severity) != 0) &&
        !((v.use_log_filter &&& INFO_FILTER_CLOG_LEVEL) != 0 &&
            decide (v.filter_log_level < r.verbosity)) &&
        ((v.use_log_filter &&& INFO_FILTER_CLOG_TYPE) == 0 ||
            filter_list_passes mt r.type_identifier v.filter_log_type) &&
        ((v.use_log_filter &&& INFO_FILTER_CLOG_FUNCTION) == 0 ||
            filter_list_passes mt r.function v.filter_log_function) &&
        ((v.use_log_filter &&& INFO_FILTER_CLOG_FILE_LINE) == 0 ||
            filter_list_passes mt r.file_line v.filter_log_file_line)) := by
  have hbeq : ∀ x : Nat, (x == 0) = decide (x = 0) := fun x => by
    cases h : decide (x = 0) <;> simp_all
  have hbne : ∀ x : Nat, (x != 0) = !decide (x = 0) := fun x => by
    cases h : decide (x = 0) <;> simp_all
  unfold is_clog_record_visible
  cases hs : r.severity <;> simp [severity_bit, Bool.and_assoc, hbeq, hbne]

/-- On a record of another severity the mask test gives the same answer whether the
bit of `s` has been set or cleared. -/
theorem severity_test_other (m : Nat) (s t : CLG_Severity) (hst : t ≠ s) :
    (((m ||| severity_bit s) &&& severity_bit t) != 0) =
      (((and_not m (severity_bit s)) &&& severity_bit t) != 0) := by
  have key : ∀ i j : Nat, j ≠ i →
      ((((m ||| 2 ^ i) &&& 2 ^ j) != 0) = (((and_not m (2 ^ i)) &&& 2 ^ j) != 0)) := by
    intro i j hij
    have h1 := and_two_pow_eq_zero_iff (m ||| 2 ^ i) j
    have h2 := and_two_pow_eq_zero_iff (and_not m (2 ^ i)) j
    rw [Nat.testBit_or, Nat.testBit_two_pow] at h1
    rw [and_not_testBit, Nat.testBit_two_pow] at h2
    have hij2 : ¬ i = j := fun h => hij h.symm
    simp only [hij2, decide_False, Bool.or_false, Bool.not_false, Bool.and_true] at h1 h2
    rw [Bool.eq_iff_iff]
    simp only [bne_iff_ne, ne_eq, h1, h2]
  cases s <;> cases t <;> first
    | exact absurd rfl hst
    | exact key 0 1 (by decide) | exact key 0 2 (by decide) | exact key 0 3 (by decide)
    | exact key 0 4 (by decide) | exact key 0 5 (by decide)
    | exact key 1 0 (by decide) | exact key 1 2 (by decide) | exact key 1 3 (by decide)
    | exact key 1 4 (by decide) | exact key 1 5 (by decide)
    | exact key 2 0 (by decide) | exact key 2 1 (by decide) | exact key 2 3 (by decide)
    | exact key 2 4 (by decide) | exact key 2 5 (by decide)
    | exact key 3 0 (by decide) | exact key 3 1 (by decide) | exact key 3 2 (by decide)
    | exact key 3 4 (by decide) | exact key 3 5 (by decide)
    | exact key 4 0 (by decide) | exact key 4 1 (by decide) | exact key 4 2 (by decide)
    | exact key 4 3 (by decide) | exact key 4 5 (by decide)
    | exact key 5 0 (by decide) | exact key 5 1 (by decide) | exact key 5 2 (by decide)
    | exact key 5 3 (by decide) | exact key 5 4 (by decide)

/-- Clearing the bit of `s` leaves it clear, setting it leaves it set. -/
theorem severity_bit_cleared_set (m : Nat) (s : CLG_Severity) :
    ((and_not m (severity_bit s)) &&& severity_bit s) = 0 ∧
      ((m ||| severity_bit s) &&& severity_bit s) ≠ 0 := by
  have key : ∀ i : Nat,
      ((and_not m (2 ^ i)) &&& 2 ^ i) = 0 ∧ ((m ||| 2 ^ i) &&& 2 ^ i) ≠ 0 := by
    intro i
    constructor
    · rw [and_two_pow_eq_zero_iff, and_not_testBit, Nat.testBit_two_pow_self]
      simp
    · rw [ne_eq, and_two_pow_eq_zero_iff, Nat.testBit_or, Nat.testBit_two_pow_self]
      simp
  cases s
  · exact key 0
  · exact key 1
  · exact key 2
  · exact key 3
  · exact key 4
  · exact key 5

/-- C1: a record is visible exactly when the free-text search matches its message, the
bit of its severity is set in the severity mask, the verbosity cutoff is disabled or
`filter_log_level >= verbosity`, and, for each of the three categories (log type,
function, file line) whose enable flag is set, every entry of the category's list
matches the record's field under the entry's own case/glob/invert flags. A category
whose enable flag is clear puts no condition on the record. -/
theorem is_clog_record_visible_iff (mt : Matcher) (r : CLG_LogRecord) (v : SpaceInfo) :
    is_clog_record_visible mt r v = true ↔
      (mt v.search_filter.search_string r.message
          ((v.search_filter.flag &&& INFO_FILTER_USE_MATCH_CASE) != 0)
          ((v.search_filter.flag &&& INFO_FILTER_USE_GLOB) != 0)
          ((v.search_filter.flag &&& INFO_FILTER_USE_MATCH_REVERSE) != 0) = true) ∧
      (v.log_severity_mask &&& severity_bit r.severity) ≠ 0 ∧
      ((v.use_log_filter &&& INFO_FILTER_CLOG_LEVEL) = 0 ∨
        v.filter_log_level ≥ r.verbosity) ∧
      ((v.use_log_filter &&& INFO_FILTER_CLOG_TYPE) ≠ 0 →
        ∀ e ∈ v.filter_log_type,
          mt e.search_string r.type_identifier
            ((e.flag &&& INFO_FILTER_USE_MATCH_CASE) != 0)
            ((e.flag &&& INFO_FILTER_USE_GLOB) != 0)
            ((e.flag &&& INFO_FILTER_USE_MATCH_REVERSE) != 0) = true) ∧
      ((v.use_log_filter &&& INFO_FILTER_CLOG_FUNCTION) ≠ 0 →
        ∀ e ∈ v.filter_log_function,
          mt e.search_string r.function
            ((e.flag &&& INFO_FILTER_USE_MATCH_CASE) != 0)
            ((e.flag &&& INFO_FILTER_USE_GLOB) != 0)
            ((e.flag &&& INFO_FILTER_USE_MATCH_REVERSE) != 0) = true) ∧
      ((v.use_log_filter &&& INFO_FILTER_CLOG_FILE_LINE) ≠ 0 →
        ∀ e ∈ v.filter_log_file_line,
          mt e.search_string r.file_line
            ((e.flag &&& INFO_FILTER_USE_MATCH_CASE) != 0)
            ((e.flag &&& INFO_FILTER_USE_GLOB) != 0)
            ((e.flag &&& INFO_FILTER_USE_MATCH_REVERSE) != 0) = true) := by
  have hT := filter_list_passes_iff mt r.type_identifier v.filter_log_type
  have hF := filter_list_passes_iff mt r.function v.filter_log_function
  have hL := filter_list_passes_iff mt r.file_line v.filter_log_file_line
  simp only [filter_matches] at hT hF hL
  rw [← hT, ← hF, ← hL]
  unfold is_clog_record_visible filter_matches
  cases hs : r.severity <;> simp [severity_bit, imp_iff_not_or, Int.not_lt]

/-- C2: with the bit of severity `s` cleared in the severity mask every record of
severity `s` is hidden; and a record of any other severity gets the same visibility
whether the bit of `s` is set or cleared, all other fields of the view state being
equal. Clearing is `mask & ~bit`, setting is `mask | bit`; the first two parts say that
they do clear and set the bit. -/
theorem severity_mask_toggle (mt : Matcher) (v : SpaceInfo) (s : CLG_Severity)
    (r : CLG_LogRecord) :
    ((and_not v.log_severity_mask (severity_bit s)) &&& severity_bit s) = 0 ∧
    ((v.log_severity_mask ||| severity_bit s) &&& severity_bit s) ≠ 0 ∧
    ((v.log_severity_mask &&& severity_bit s) = 0 → r.severity = s →
      is_clog_record_visible mt r v = false) ∧
    (r.severity ≠ s →
      is_clog_record_visible mt r
          { v with log_severity_mask := v.log_severity_mask ||| severity_bit s } =
        is_clog_record_visible mt r
          { v with log_severity_mask := and_not v.log_severity_mask (severity_bit s) }) := by
  refine ⟨(severity_bit_cleared_set _ s).1, (severity_bit_cleared_set _ s).2, ?_, ?_⟩
  · intro hm hs
    rw [visible_eq, hs, hm]
    simp
  · intro hs
    rw [visible_eq, visible_eq]
    simp only [severity_test_other v.log_severity_mask s r.severity hs]

/-- C2 at a concrete input: in `sample_view` with
the WARN bit cleared a WARN record is hidden, and an INFO record is visible with the
WARN bit set and with it cleared. -/
theorem severity_mask_toggle_witness :
    is_clog_record_visible sample_matcher (sample_record .WARN 0)
        { sample_view with log_severity_mask := 55 } = false ∧
    is_clog_record_visible sample_matcher (sample_record .INFO 0)
        { sample_view with log_severity_mask := 63 ||| severity_bit .WARN } =
      is_clog_record_visible sample_matcher (sample_record .INFO 0)
        { sample_view with log_severity_mask := and_not 63 (severity_bit .WARN) } :=
  ⟨(severity_mask_toggle sample_matcher { sample_view with log_severity_mask := 55 }
      .WARN (sample_record .WARN 0)).2.2.1 (by decide) rfl,
   (severity_mask_toggle sample_matcher sample_view .WARN (sample_record .INFO 0)).2.2.2
      (by decide)⟩

/-- Visibility reads no flag word of the record: the three flag statements keep it. -/
theorem visible_flag_set (mt : Matcher) (r : CLG_LogRecord) (v : SpaceInfo) :
    is_clog_record_visible mt (flag_set r) v = is_clog_record_visible mt r v := rfl

theorem visible_flag_clear (mt : Matcher) (r : CLG_LogRecord) (v : SpaceInfo) :
    is_clog_record_visible mt (flag_clear r) v = is_clog_record_visible mt r v := rfl

theorem visible_flag_toggle (mt : Matcher) (r : CLG_LogRecord) (v : SpaceInfo) :
    is_clog_record_visible mt (flag_toggle r) v = is_clog_record_visible mt r v := rfl

/-- Visibility reads the active index nowhere. -/
theorem visible_active_index (mt : Matcher) (r : CLG_LogRecord) (v : SpaceInfo) (a : Int) :
    is_clog_record_visible mt r { v with active_index := a } =
      is_clog_record_visible mt r v := rfl

/-! ### Select all -/

theorem select_all_loop_eq_map (mt : Matcher) (v : SpaceInfo) (action : Int)
    (l : List CLG_LogRecord) :
    select_all_loop mt v action l = l.map (select_all_step mt v action) := by
  induction l with
  | nil => rfl
  | cons r rest ih => simp [select_all_loop, ih]

/-- The scan of the TOGGLE action finds a visible selected record exactly when the list
has one, in whichever direction it is walked. -/
theorem toggle_scan_eq (mt : Matcher) (v : SpaceInfo) (l : List CLG_LogRecord) :
    toggle_scan mt v l =
      if l.any (fun r => is_clog_record_visible mt r v && is_selected r) then SEL_DESELECT
      else SEL_SELECT := by
  induction l with
  | nil => rfl
  | cons r rest ih =>
    simp only [toggle_scan, List.any_cons, ih]
    by_cases h : (is_clog_record_visible mt r v && is_selected r) = true
    · simp [h]
    · rw [Bool.not_eq_true] at h
      simp [h]

/-- The action that `log_records_select_all` applies once TOGGLE has been resolved. -/
theorem log_records_select_all_eq_map (mt : Matcher) (records : List CLG_LogRecord)
    (v : SpaceInfo) (action : Int) :
    log_records_select_all mt records v action =
      records.map (select_all_step mt v
        (if action = SEL_TOGGLE then
          (if records.any (fun r => is_clog_record_visible mt r v && is_selected r) then
            SEL_DESELECT else SEL_SELECT)
        else action)) := by
  unfold log_records_select_all
  simp only [select_all_loop_eq_map, toggle_scan_eq, List.any_reverse, List.map_reverse,
    List.reverse_reverse]

theorem visible_select_all_step (mt : Matcher) (v w : SpaceInfo) (action : Int)
    (r : CLG_LogRecord) :
    is_clog_record_visible mt (select_all_step mt w action r) v =
      is_clog_record_visible mt r v := by
  unfold select_all_step
  split
  · split
    · rfl
    · split
      · rfl
      · split <;> rfl
  · rfl

theorem select_all_step_hidden (mt : Matcher) (v : SpaceInfo) (action : Int)
    (r : CLG_LogRecord) (h : is_clog_record_visible mt r v = false) :
    select_all_step mt v action r = r := by
  simp [select_all_step, h]

theorem select_all_step_select (mt : Matcher) (v : SpaceInfo) (r : CLG_LogRecord)
    (h : is_clog_record_visible mt r v = true) :
    select_all_step mt v SEL_SELECT r = flag_set r := by
  simp [select_all_step, h]

theorem select_all_step_deselect (mt : Matcher) (v : SpaceInfo) (r : CLG_LogRecord)
    (h : is_clog_record_visible mt r v = true) :
    select_all_step mt v SEL_DESELECT r = flag_clear r := by
  simp [select_all_step, h, SEL_DESELECT, SEL_SELECT]

theorem select_all_step_invert (mt : Matcher) (v : SpaceInfo) (r : CLG_LogRecord)
    (h : is_clog_record_visible mt r v = true) :
    select_all_step mt v SEL_INVERT r = flag_toggle r := by
  simp [select_all_step, h, SEL_DESELECT, SEL_SELECT, SEL_INVERT]

/-- C3: for the actions SELECT, DESELECT and INVERT, `log_records_select_all` keeps the
length of the record list and, position by position, leaves a visible record selected,
deselected, or with its selection flag negated, respectively, while the selection flag
of a record that is not visible is unchanged. -/
theorem log_records_select_all_spec (mt : Matcher) (records : List CLG_LogRecord)
    (sinfo : SpaceInfo) (action : Int)
    (haction : action = SEL_SELECT ∨ action = SEL_DESELECT ∨ action = SEL_INVERT) :
    (log_records_select_all mt records sinfo action).length = records.length ∧
    ∀ (i : Nat) (r : CLG_LogRecord), records[i]? = some r →
      ∃ r2, (log_records_select_all mt records sinfo action)[i]? = some r2 ∧
        (is_clog_record_visible mt r sinfo = true →
          (action = SEL_SELECT → is_selected r2 = true) ∧
          (action = SEL_DESELECT → is_selected r2 = false) ∧
          (action = SEL_INVERT → is_selected r2 = !is_selected r)) ∧
        (is_clog_record_visible mt r sinfo = false → is_selected r2 = is_selected r) := by
  have hnt : action ≠ SEL_TOGGLE := by
    rcases haction with h | h | h <;> rw [h] <;> decide
  rw [log_records_select_all_eq_map, if_neg hnt]
  refine ⟨List.length_map _ _, ?_⟩
  intro i r hr
  refine ⟨select_all_step mt sinfo action r, by simp [List.getElem?_map, hr], ?_, ?_⟩
  · intro hv
    refine ⟨?_, ?_, ?_⟩
    · intro ha
      rw [ha, select_all_step_select mt sinfo r hv, is_selected_flag_set]
    · intro ha
      rw [ha, select_all_step_deselect mt sinfo r hv, is_selected_flag_clear]
    · intro ha
      rw [ha, select_all_step_invert mt sinfo r hv, is_selected_flag_toggle]
  · intro hv
    rw [select_all_step_hidden mt sinfo action r hv]

/-- C3 at a concrete input: INVERT on
`sample_pair` keeps two records. -/
theorem log_records_select_all_spec_witness :
    (log_records_select_all sample_matcher sample_pair sample_view SEL_INVERT).length = 2 :=
  (log_records_select_all_spec sample_matcher sample_pair sample_view SEL_INVERT
    (Or.inr (Or.inr rfl))).1

/-- C4: with action TOGGLE, `log_records_select_all` produces the record list of action
DESELECT when at least one visible record is selected and the record list of action
SELECT when no visible record is selected; selected records that are not visible do not
enter the choice. -/
theorem log_records_select_all_toggle (mt : Matcher) (records : List CLG_LogRecord)
    (sinfo : SpaceInfo) :
    ((∃ r ∈ records, is_clog_record_visible mt r sinfo = true ∧ is_selected r = true) →
      log_records_select_all mt records sinfo SEL_TOGGLE =
        log_records_select_all mt records sinfo SEL_DESELECT) ∧
    ((¬ ∃ r ∈ records, is_clog_record_visible mt r sinfo = true ∧ is_selected r = true) →
      log_records_select_all mt records sinfo SEL_TOGGLE =
        log_records_select_all mt records sinfo SEL_SELECT) := by
  have hany : records.any (fun r => is_clog_record_visible mt r sinfo && is_selected r) = true
      ↔ ∃ r ∈ records, is_clog_record_visible mt r sinfo = true ∧ is_selected r = true := by
    simp [List.any_eq_true]
  have hd : SEL_DESELECT ≠ SEL_TOGGLE := by decide
  have hs : SEL_SELECT ≠ SEL_TOGGLE := by decide
  constructor
  · intro h
    rw [log_records_select_all_eq_map, log_records_select_all_eq_map, if_pos rfl, if_neg hd,
      if_pos (hany.2 h)]
  · intro h
    have h2 : ¬ records.any
        (fun r => is_clog_record_visible mt r sinfo && is_selected r) = true :=
      fun h3 => h (hany.1 h3)
    rw [log_records_select_all_eq_map, log_records_select_all_eq_map, if_pos rfl, if_neg hs,
      if_neg h2]

/-- C4 at a concrete input: `sample_pair`
has a visible selected record, so TOGGLE acts as DESELECT on it. -/
theorem log_records_select_all_toggle_witness :
    log_records_select_all sample_matcher sample_pair sample_view SEL_TOGGLE =
      log_records_select_all sample_matcher sample_pair sample_view SEL_DESELECT :=
  (log_records_select_all_toggle sample_matcher sample_pair sample_view).1
    ⟨sample_record .INFO 1, by decide, by decide, by decide⟩

/-- After TOGGLE a visible record is selected exactly when no visible record of the list
was selected before. -/
theorem toggle_step_selected (mt : Matcher) (v : SpaceInfo) (b : Bool) (r : CLG_LogRecord)
    (hv : is_clog_record_visible mt r v = true) :
    is_selected (select_all_step mt v (if b = true then SEL_DESELECT else SEL_SELECT) r) =
      !b := by
  cases b
  · simp only [Bool.false_eq_true, if_false, Bool.not_false]
    rw [select_all_step_select mt v r hv, is_selected_flag_set]
  · simp only [if_true, Bool.not_true]
    rw [select_all_step_deselect mt v r hv, is_selected_flag_clear]

/-- When the list has a visible record, one TOGGLE flips the answer to the question
whether some visible record is selected. -/
theorem toggle_any_flips (mt : Matcher) (v : SpaceInfo) (records : List CLG_LogRecord)
    (r : CLG_LogRecord) (hr : r ∈ records) (hv : is_clog_record_visible mt r v = true) :
    (log_records_select_all mt records v SEL_TOGGLE).any
        (fun x => is_clog_record_visible mt x v && is_selected x) =
      !records.any (fun x => is_clog_record_visible mt x v && is_selected x) := by
  rw [log_records_select_all_eq_map, if_pos rfl, List.any_map]
  generalize records.any (fun x => is_clog_record_visible mt x v && is_selected x) = b
  cases b
  · rw [Bool.not_false, List.any_eq_true]
    refine ⟨r, hr, ?_⟩
    simp only [Function.comp, visible_select_all_step, hv, Bool.true_and]
    exact toggle_step_selected mt v false r hv
  · rw [Bool.not_true, List.any_eq_false]
    intro x _
    simp only [Function.comp, visible_select_all_step]
    cases hx : is_clog_record_visible mt x v
    · simp
    · have := toggle_step_selected mt v true x hx
      simp only [Bool.true_and, Bool.not_eq_true]
      simpa using this

/-- Two TOGGLEs in a row leave every visible record selected exactly when some visible
record was selected before the first one. -/
theorem toggle_twice_selected (mt : Matcher) (v : SpaceInfo) (records : List CLG_LogRecord)
    (i : Nat) (r : CLG_LogRecord) (hr : records[i]? = some r)
    (hv : is_clog_record_visible mt r v = true) :
    ∃ r2, (log_records_select_all mt (log_records_select_all mt records v SEL_TOGGLE) v
        SEL_TOGGLE)[i]? = some r2 ∧
      is_selected r2 =
        records.any (fun x => is_clog_record_visible mt x v && is_selected x) := by
  have hmem : r ∈ records := List.getElem?_mem hr
  have hflip := toggle_any_flips mt v records r hmem hv
  rw [log_records_select_all_eq_map mt (log_records_select_all mt records v SEL_TOGGLE),
    if_pos rfl, hflip]
  rw [log_records_select_all_eq_map, if_pos rfl]
  generalize records.any (fun x => is_clog_record_visible mt x v && is_selected x) = b
  refine ⟨_, by simp only [List.getElem?_map, hr, Option.map_some']; rfl, ?_⟩
  have h1 : is_clog_record_visible mt
      (select_all_step mt v (if b = true then SEL_DESELECT else SEL_SELECT) r) v = true := by
    rw [visible_select_all_step]; exact hv
  have h2 := toggle_step_selected mt v (!b) _ h1
  rw [Bool.not_not] at h2
  exact h2

/-- C5, as stated, fails: in `sample_pair` both records are visible, the first is
selected and the second is not; after two TOGGLEs the second record is selected. -/
theorem toggle_twice_counterexample :
    is_clog_record_visible sample_matcher (sample_record .WARN 0) sample_view = true ∧
    sample_pair[1]? = some (sample_record .WARN 0) ∧
    is_selected (sample_record .WARN 0) = false ∧
    (log_records_select_all sample_matcher
        (log_records_select_all sample_matcher sample_pair sample_view SEL_TOGGLE)
        sample_view SEL_TOGGLE)[1]? = some (sample_record .WARN 1) ∧
    is_selected (sample_record .WARN 1) = true := by
  decide

/-- C5, amended: when all visible records of the list carry the same selection flag
(all selected or all not selected), applying `log_records_select_all` with action TOGGLE
twice in a row, under a fixed view state, returns the selection flag of every visible
record to the value it had before the first application. -/
theorem toggle_twice_uniform (mt : Matcher) (records : List CLG_LogRecord)
    (sinfo : SpaceInfo)
    (huniform : ∀ r1 ∈ records, ∀ r2 ∈ records,
      is_clog_record_visible mt r1 sinfo = true → is_clog_record_visible mt r2 sinfo = true →
      is_selected r1 = is_selected r2)
    (i : Nat) (r : CLG_LogRecord) (hr : records[i]? = some r)
    (hv : is_clog_record_visible mt r sinfo = true) :
    ∃ r2, (log_records_select_all mt
        (log_records_select_all mt records sinfo SEL_TOGGLE) sinfo SEL_TOGGLE)[i]? = some r2 ∧
      is_selected r2 = is_selected r := by
  obtain ⟨r2, h1, h2⟩ := toggle_twice_selected mt sinfo records i r hr hv
  refine ⟨r2, h1, ?_⟩
  rw [h2]
  have hmem : r ∈ records := List.getElem?_mem hr
  cases hsel : is_selected r
  · rw [List.any_eq_false]
    intro x hx
    cases hxv : is_clog_record_visible mt x sinfo
    · simp
    · have := huniform x hx r hmem hxv hv
      simp [this, hsel]
  · rw [List.any_eq_true]
    exact ⟨r, hmem, by simp [hv, hsel]⟩

/-- C5, amended, at a concrete input: a list of two visible
selected records; the second is selected again after two TOGGLEs. -/
theorem toggle_twice_uniform_witness :
    ∃ r2, (log_records_select_all sample_matcher
        (log_records_select_all sample_matcher
          [sample_record .INFO 1, sample_record .WARN 1] sample_view SEL_TOGGLE)
        sample_view SEL_TOGGLE)[1]? = some r2 ∧
      is_selected r2 = is_selected (sample_record .WARN 1) :=
  toggle_twice_uniform sample_matcher [sample_record .INFO 1, sample_record .WARN 1]
    sample_view (by decide) 1 (sample_record .WARN 1) (by decide) (by decide)

/-! ### Pick -/

theorem BLI_findlink_invalid (records : List CLG_LogRecord) :
    BLI_findlink records INDEX_INVALID = none := by
  simp [BLI_findlink, INDEX_INVALID]

theorem BLI_findlink_some (records : List CLG_LogRecord) (number : Int) (r : CLG_LogRecord)
    (h : BLI_findlink records number = some r) :
    0 ≤ number ∧ number ≠ INDEX_INVALID ∧ records[number.toNat]? = some r := by
  unfold BLI_findlink at h
  by_cases h0 : 0 ≤ number
  · rw [if_pos h0] at h
    refine ⟨h0, ?_, h⟩
    intro hn
    rw [hn] at h0
    exact absurd h0 (by decide)
  · rw [if_neg h0] at h
    exact Option.noConfusion h

/-- Deselecting all visible records leaves no visible record selected. -/
theorem deselect_all_none_selected (mt : Matcher) (records : List CLG_LogRecord)
    (v : SpaceInfo) :
    ∀ r ∈ log_records_select_all mt records v SEL_DESELECT,
      is_clog_record_visible mt r v = true → is_selected r = false := by
  intro r hr hv
  have hd : SEL_DESELECT ≠ SEL_TOGGLE := by decide
  rw [log_records_select_all_eq_map, if_neg hd, List.mem_map] at hr
  obtain ⟨x, _, hx⟩ := hr
  have hxv : is_clog_record_visible mt x v = true := by
    rw [← hx, visible_select_all_step] at hv; exact hv
  rw [← hx, select_all_step_deselect mt v x hxv, is_selected_flag_clear]

/-- C6: a Pick whose index is not the sentinel and resolves to no record returns
CANCELLED and hands back the record list and the view state as they were, for every
value of `extend`, `extend_range` and `deselect_all`. -/
theorem pick_unresolved_cancelled (mt : Matcher) (records : List CLG_LogRecord)
    (sinfo : SpaceInfo) (clog_index : Int) (extend use_range deselect_all : Bool)
    (hsentinel : clog_index ≠ INDEX_INVALID)
    (hnone : BLI_findlink records clog_index = none) :
    select_clog_pick_exec mt records sinfo clog_index extend use_range deselect_all =
      (OPERATOR_CANCELLED, records, sinfo) := by
  unfold select_clog_pick_exec
  rw [if_neg hsentinel, hnone]

/-- C6 at a concrete input: index 7 on a list
of two records. -/
theorem pick_unresolved_cancelled_witness :
    select_clog_pick_exec sample_matcher sample_pair sample_view 7 true false true =
      (OPERATOR_CANCELLED, sample_pair, sample_view) :=
  pick_unresolved_cancelled sample_matcher sample_pair sample_view 7 true false true
    (by decide) (by decide)

/-- C7, as stated, fails: a Pick with the sentinel index and `deselect_all` set on
`sample_pair`, whose active index 0 names the first record, deselects the records but
leaves the active index at 0, where it still resolves to a record. -/
theorem pick_empty_counterexample :
    select_clog_pick_exec sample_matcher sample_pair sample_view INDEX_INVALID false false
        true =
      (OPERATOR_FINISHED, [sample_record .INFO 0, sample_record .WARN 0], sample_view) ∧
    sample_view.active_index = 0 ∧
    BLI_findlink [sample_record .INFO 0, sample_record .WARN 0] sample_view.active_index =
      some (sample_record .INFO 0) := by
  decide

/-- C7, amended: a Pick with the sentinel index `INDEX_INVALID` and `deselect_all` set
returns FINISHED, afterwards no visible record is selected, and the active index is
left as it was (it is not cleared). -/
theorem pick_empty_deselects (mt : Matcher) (records : List CLG_LogRecord)
    (sinfo : SpaceInfo) (extend use_range : Bool) :
    (select_clog_pick_exec mt records sinfo INDEX_INVALID extend use_range true).1 =
      OPERATOR_FINISHED ∧
    (∀ r ∈ (select_clog_pick_exec mt records sinfo INDEX_INVALID extend use_range true).2.1,
      is_clog_record_visible mt r
        (select_clog_pick_exec mt records sinfo INDEX_INVALID extend use_range true).2.2 = true →
      is_selected r = false) ∧
    (select_clog_pick_exec mt records sinfo INDEX_INVALID extend use_range true).2.2.active_index
      = sinfo.active_index := by
  have h : select_clog_pick_exec mt records sinfo INDEX_INVALID extend use_range true =
      (OPERATOR_FINISHED, log_records_select_all mt records sinfo SEL_DESELECT, sinfo) := by
    unfold select_clog_pick_exec
    rw [if_pos rfl]
  rw [h]
  exact ⟨rfl, deselect_all_none_selected mt records sinfo, rfl⟩

/-- C7, amended, at a concrete input: after the Pick on
`sample_pair` the first record, visible and selected before, is not selected. -/
theorem pick_empty_deselects_witness :
    is_selected (sample_record .INFO 0) = false :=
  (pick_empty_deselects sample_matcher sample_pair sample_view false false).2.1
    (sample_record .INFO 0) (by decide) (by decide)

/-- C8 on the code: two Picks of the second record of `sample_pair` from the same state
that differ only in `deselect_all` end in different states. Without the flag the first
record stays selected, with it the first record is deselected. -/
theorem pick_depends_on_deselect_all :
    select_clog_pick_exec sample_matcher sample_pair sample_view 1 false false false =
      (OPERATOR_FINISHED, [sample_record .INFO 1, sample_record .WARN 1],
        { sample_view with active_index := 1 }) ∧
    select_clog_pick_exec sample_matcher sample_pair sample_view 1 false false true =
      (OPERATOR_FINISHED, [sample_record .INFO 0, sample_record .WARN 1],
        { sample_view with active_index := 1 }) ∧
    select_clog_pick_exec sample_matcher sample_pair sample_view 1 false false false ≠
      select_clog_pick_exec sample_matcher sample_pair sample_view 1 false false true := by
  decide

/-- The record list on which the branches of a Pick work: the list as it is, or with
all visible records deselected when `deselect_all` is set. Every position keeps a
record. -/
theorem pick_work_list_getElem? (mt : Matcher) (records : List CLG_LogRecord)
    (sinfo : SpaceInfo) (deselect_all : Bool) (i : Nat) (r : CLG_LogRecord)
    (hr : records[i]? = some r) :
    ∃ x, (if deselect_all = true then log_records_select_all mt records sinfo SEL_DESELECT
        else records)[i]? = some x := by
  cases deselect_all
  · exact ⟨r, by simpa using hr⟩
  · have hd : SEL_DESELECT ≠ SEL_TOGGLE := by decide
    refine ⟨select_all_step mt sinfo SEL_DESELECT r, ?_⟩
    simp only [if_true]
    rw [log_records_select_all_eq_map, if_neg hd, List.getElem?_map, hr]
    rfl

/-- C9: a Pick on an index that resolves to a record, while the active index resolves to
no record, returns FINISHED, leaves the picked record selected and makes the picked
index the active index, for every value of `extend`, `extend_range` and
`deselect_all`. -/
theorem pick_without_active (mt : Matcher) (records : List CLG_LogRecord)
    (sinfo : SpaceInfo) (clog_index : Int) (extend use_range deselect_all : Bool)
    (r : CLG_LogRecord)
    (hpick : BLI_findlink records clog_index = some r)
    (hactive : BLI_findlink records sinfo.active_index = none) :
    (select_clog_pick_exec mt records sinfo clog_index extend use_range deselect_all).1 =
      OPERATOR_FINISHED ∧
    (∃ r2,
      BLI_findlink
        (select_clog_pick_exec mt records sinfo clog_index extend use_range deselect_all).2.1
        clog_index = some r2 ∧
      is_selected r2 = true) ∧
    (select_clog_pick_exec mt records sinfo clog_index extend use_range
      deselect_all).2.2.active_index = clog_index := by
  obtain ⟨h0, hne, hget⟩ := BLI_findlink_some records clog_index r hpick
  have h : select_clog_pick_exec mt records sinfo clog_index extend use_range deselect_all =
      (OPERATOR_FINISHED,
        (if deselect_all = true then log_records_select_all mt records sinfo SEL_DESELECT
          else records).modify flag_set clog_index.toNat,
        { sinfo with active_index := clog_index }) := by
    unfold select_clog_pick_exec
    rw [if_neg hne, hpick]
    simp only [hactive]
  rw [h]
  refine ⟨rfl, ?_, rfl⟩
  obtain ⟨x, hx⟩ := pick_work_list_getElem? mt records sinfo deselect_all _ r hget
  refine ⟨flag_set x, ?_, is_selected_flag_set x⟩
  unfold BLI_findlink
  rw [if_pos h0]
  show (List.modify flag_set clog_index.toNat _)[clog_index.toNat]? = some (flag_set x)
  rw [List.getElem?_modify_eq, hx]
  rfl

/-- C9 at a concrete input: `sample_pair` with the
active index past the end, Pick of the second record. -/
theorem pick_without_active_witness :
    (select_clog_pick_exec sample_matcher sample_pair { sample_view with active_index := 9 }
      1 false true true).2.2.active_index = 1 :=
  (pick_without_active sample_matcher sample_pair { sample_view with active_index := 9 }
    1 false true true (sample_record .WARN 0) (by decide) (by decide)).2.2

/-- C10 on the code: in `sample_triple` with the active index on the second record,
which is selected, a range Pick of the first record with `deselect_all` set selects the
records at 0 and 1 and deselects the record at 2, which lies outside the range and was
selected; the same Pick without `deselect_all` leaves the record at 2 selected. -/
theorem pick_range_deselects_outside :
    select_clog_pick_exec sample_matcher sample_triple { sample_view with active_index := 1 }
        0 false true true =
      (OPERATOR_FINISHED,
        [sample_record .INFO 1, sample_record .WARN 1, sample_record .ERROR 0],
        { sample_view with active_index := 1 }) ∧
    select_clog_pick_exec sample_matcher sample_triple { sample_view with active_index := 1 }
        0 false true false =
      (OPERATOR_FINISHED,
        [sample_record .INFO 1, sample_record .WARN 1, sample_record .ERROR 1],
        { sample_view with active_index := 1 }) ∧
    sample_triple[2]? = some (sample_record .ERROR 1) ∧
    is_selected (sample_record .ERROR 1) = true ∧
    is_selected (sample_record .ERROR 0) = false := by
  decide

/-- The forward range loop started at position `pos`, at or before the record after the
active one, selects the records up to the active position and touches no other. -/
theorem range_select_next_getElem? (a : Nat) (l : List CLG_LogRecord) :
    ∀ (pos j : Nat), pos ≤ a + 1 →
      (range_select_next a pos l)[j]? =
        if pos + j ≤ a then l[j]?.map flag_set else l[j]? := by
  induction l with
  | nil => intro pos j _; simp [range_select_next]
  | cons x rest ih =>
    intro pos j hpos
    unfold range_select_next
    by_cases hstop : pos = a + 1
    · rw [if_pos hstop, if_neg (by omega)]
    · rw [if_neg hstop]
      cases j with
      | zero =>
        rw [if_pos (by omega)]
        simp
      | succ k =>
        simp only [List.getElem?_cons_succ]
        rw [ih (pos + 1) k (by omega)]
        by_cases hk : pos + 1 + k ≤ a
        · rw [if_pos hk, if_pos (by omega)]
        · rw [if_neg hk, if_neg (by omega)]

/-- The range Pick of C10 with `deselect_all` not set: when the active record exists and
is selected and the picked index `p` is below the active index `a`, the Pick returns
FINISHED, keeps the active index, leaves every record at a position in `[p, a]` selected
and every record at a position outside `[p, a]` as it was. -/
theorem pick_range_below_active (mt : Matcher) (records : List CLG_LogRecord)
    (sinfo : SpaceInfo) (clog_index : Int) (extend : Bool) (r ra : CLG_LogRecord)
    (hpick : BLI_findlink records clog_index = some r)
    (hactive : BLI_findlink records sinfo.active_index = some ra)
    (hsel : is_selected ra = true)
    (hlt : clog_index < sinfo.active_index) :
    (select_clog_pick_exec mt records sinfo clog_index extend true false).1 =
      OPERATOR_FINISHED ∧
    (select_clog_pick_exec mt records sinfo clog_index extend true false).2.2 = sinfo ∧
    ∀ (i : Nat) (x : CLG_LogRecord), records[i]? = some x →
      ∃ x2, (select_clog_pick_exec mt records sinfo clog_index extend true false).2.1[i]? =
          some x2 ∧
        (clog_index ≤ i ∧ (i : Int) ≤ sinfo.active_index → is_selected x2 = true) ∧
        (¬ (clog_index ≤ i ∧ (i : Int) ≤ sinfo.active_index) → x2 = x) := by
  obtain ⟨h0, hne, _⟩ := BLI_findlink_some records clog_index r hpick
  obtain ⟨ha0, _, _⟩ := BLI_findlink_some records sinfo.active_index ra hactive
  have h : select_clog_pick_exec mt records sinfo clog_index extend true false =
      (OPERATOR_FINISHED,
        records.take clog_index.toNat ++
          range_select_next sinfo.active_index.toNat clog_index.toNat
            (records.drop clog_index.toNat),
        sinfo) := by
    unfold select_clog_pick_exec
    rw [if_neg hne, hpick]
    simp only [hactive, hsel, if_true, if_pos hlt, Bool.false_eq_true, if_false]
  rw [h]
  refine ⟨rfl, rfl, ?_⟩
  intro i x hx
  have hilt : i < records.length := (List.getElem?_eq_some.1 hx).1
  have hp : ((clog_index.toNat : Nat) : Int) = clog_index := Int.toNat_of_nonneg h0
  have ha : ((sinfo.active_index.toNat : Nat) : Int) = sinfo.active_index :=
    Int.toNat_of_nonneg ha0
  by_cases hip : i < clog_index.toNat
  · refine ⟨x, ?_, ?_, ?_⟩
    · rw [List.getElem?_append_left (by rw [List.length_take]; omega),
        List.getElem?_take_of_lt hip, hx]
    · intro hin; omega
    · intro _; rfl
  · have hlen : (List.take clog_index.toNat records).length = clog_index.toNat := by
      rw [List.length_take]; omega
    have hget : (List.take clog_index.toNat records ++
        range_select_next sinfo.active_index.toNat clog_index.toNat
          (List.drop clog_index.toNat records))[i]? =
        if clog_index.toNat + (i - clog_index.toNat) ≤ sinfo.active_index.toNat then
          (some x).map flag_set else some x := by
      rw [List.getElem?_append_right (by omega), hlen,
        range_select_next_getElem? _ _ _ _ (by omega), List.getElem?_drop]
      have : clog_index.toNat + (i - clog_index.toNat) = i := by omega
      rw [this, hx]
    by_cases hia : i ≤ sinfo.active_index.toNat
    · refine ⟨flag_set x, ?_, fun _ => is_selected_flag_set x, ?_⟩
      · rw [hget, if_pos (by omega)]; rfl
      · intro hn; exact absurd ⟨by omega, by omega⟩ hn
    · refine ⟨x, ?_, ?_, fun _ => rfl⟩
      · rw [hget, if_neg (by omega)]
      · intro hin; omega

/-- The range Pick below the active record at a concrete input: `sample_triple` with
the active index on the second record, range Pick of the first record. -/
theorem pick_range_below_active_witness :
    (select_clog_pick_exec sample_matcher sample_triple
      { sample_view with active_index := 1 } 0 false true false).1 = OPERATOR_FINISHED :=
  (pick_range_below_active sample_matcher sample_triple
    { sample_view with active_index := 1 } 0 false (sample_record .INFO 0)
    (sample_record .WARN 1) (by decide) (by decide) (by decide) (by decide)).1

/-- C11 on the code: in `sample_pair` the first record is the active record and is
selected. A Pick of it with `extend` set, no range and `deselect_all` set leaves it
selected: the deselect pass clears its flag before the test of line 229 reads it, so the
Pick takes the select branch. -/
theorem pick_extend_keeps_selected :
    select_clog_pick_exec sample_matcher sample_pair sample_view 0 true false true =
      (OPERATOR_FINISHED, [sample_record .INFO 1, sample_record .WARN 0], sample_view) ∧
    BLI_findlink sample_pair sample_view.active_index = some (sample_record .INFO 1) ∧
    is_selected (sample_record .INFO 1) = true := by
  decide

/-- Setting the selection bit of a flag word that has it cleared from a selected one
gives the word back. -/
theorem flag_set_flag_clear (r : CLG_LogRecord) (h : is_selected r = true) :
    flag_set (flag_clear r) = r := by
  rw [is_selected_eq_testBit] at h
  have hf : (and_not r.flag 1 ||| 1) = r.flag := by
    apply Nat.eq_of_testBit_eq
    intro i
    rw [Nat.testBit_or, and_not_testBit]
    cases i with
    | zero => rw [Nat.testBit_one_zero, h]; rfl
    | succ k =>
      have h1 : Nat.testBit 1 (k + 1) = false := by
        rw [Nat.testBit_succ]; simp
      rw [h1]; simp
  cases r
  simp only [flag_set, flag_clear, CLG_SELECT] at *
  rw [hf]

/-- The toggle pair of C11 with `deselect_all` not set: when record `i` is the active
record and is selected, a Pick of `i` with `extend` set and no range deselects it, and a
second identical Pick selects it again, with the active index `i` and the record list
as it was before the first Pick. -/
theorem pick_extend_toggle_pair (mt : Matcher) (records : List CLG_LogRecord)
    (sinfo : SpaceInfo) (r : CLG_LogRecord)
    (hpick : BLI_findlink records sinfo.active_index = some r)
    (hsel : is_selected r = true) :
    select_clog_pick_exec mt records sinfo sinfo.active_index true false false =
      (OPERATOR_FINISHED, records.modify flag_clear sinfo.active_index.toNat, sinfo) ∧
    BLI_findlink (records.modify flag_clear sinfo.active_index.toNat) sinfo.active_index =
      some (flag_clear r) ∧
    is_selected (flag_clear r) = false ∧
    select_clog_pick_exec mt (records.modify flag_clear sinfo.active_index.toNat) sinfo
        sinfo.active_index true false false =
      (OPERATOR_FINISHED, records, sinfo) := by
  obtain ⟨h0, hne, hget⟩ := BLI_findlink_some records sinfo.active_index r hpick
  have hfind : BLI_findlink (records.modify flag_clear sinfo.active_index.toNat)
      sinfo.active_index = some (flag_clear r) := by
    unfold BLI_findlink
    rw [if_pos h0, List.getElem?_modify_eq, hget]
    rfl
  have hget2 : (List.modify flag_clear sinfo.active_index.toNat records)[
      sinfo.active_index.toNat]? = some (flag_clear r) := by
    rw [List.getElem?_modify_eq, hget]; rfl
  refine ⟨?_, hfind, is_selected_flag_clear r, ?_⟩
  · unfold select_clog_pick_exec
    rw [if_neg hne, hpick]
    simp [hget, hsel]
  · unfold select_clog_pick_exec
    rw [if_neg hne, hfind]
    simp only [Bool.false_eq_true, if_false, hget2, is_selected_flag_clear, Bool.and_false,
      Bool.false_and]
    have hmod : List.modify flag_set sinfo.active_index.toNat
        (List.modify flag_clear sinfo.active_index.toNat records) = records := by
      apply List.ext_getElem?
      intro n
      by_cases hn : sinfo.active_index.toNat = n
      · subst hn
        rw [List.getElem?_modify_eq, hget2, hget]
        show some (flag_set (flag_clear r)) = some r
        rw [flag_set_flag_clear r hsel]
      · rw [List.getElem?_modify_ne _ _ hn, List.getElem?_modify_ne _ _ hn]
    rw [hmod]

/-- The toggle pair at a concrete input: the first record of `sample_pair`. -/
theorem pick_extend_toggle_pair_witness :
    select_clog_pick_exec sample_matcher
        (sample_pair.modify flag_clear sample_view.active_index.toNat) sample_view
        sample_view.active_index true false false =
      (OPERATOR_FINISHED, sample_pair, sample_view) :=
  (pick_extend_toggle_pair sample_matcher sample_pair sample_view (sample_record .INFO 1)
    (by decide) (by decide)).2.2.2

/-- C12: a Pick with `extend_range` set on an index `p` that resolves to a record, while
the active record exists and is not selected, leaves the picked record selected, no
other visible record selected, and the active index equal to `p`; it returns
FINISHED. -/
theorem pick_range_active_unselected (mt : Matcher) (records : List CLG_LogRecord)
    (sinfo : SpaceInfo) (clog_index : Int) (extend deselect_all : Bool)
    (r ra : CLG_LogRecord)
    (hpick : BLI_findlink records clog_index = some r)
    (hactive : BLI_findlink records sinfo.active_index = some ra)
    (hsel : is_selected ra = false) :
    (select_clog_pick_exec mt records sinfo clog_index extend true deselect_all).1 =
      OPERATOR_FINISHED ∧
    (∃ r2,
      BLI_findlink
        (select_clog_pick_exec mt records sinfo clog_index extend true deselect_all).2.1
        clog_index = some r2 ∧
      is_selected r2 = true) ∧
    (∀ (i : Nat) (x : CLG_LogRecord), (i : Int) ≠ clog_index →
      (select_clog_pick_exec mt records sinfo clog_index extend true deselect_all).2.1[i]? =
        some x →
      is_clog_record_visible mt x
        (select_clog_pick_exec mt records sinfo clog_index extend true deselect_all).2.2 =
          true →
      is_selected x = false) ∧
    (select_clog_pick_exec mt records sinfo clog_index extend true
      deselect_all).2.2.active_index = clog_index := by
  obtain ⟨h0, hne, hget⟩ := BLI_findlink_some records clog_index r hpick
  have h : select_clog_pick_exec mt records sinfo clog_index extend true deselect_all =
      (OPERATOR_FINISHED,
        (log_records_select_all mt
          (if deselect_all = true then log_records_select_all mt records sinfo SEL_DESELECT
            else records) sinfo SEL_DESELECT).modify flag_set clog_index.toNat,
        { sinfo with active_index := clog_index }) := by
    unfold select_clog_pick_exec
    rw [if_neg hne, hpick]
    simp only [hactive, hsel, if_true, Bool.false_eq_true, if_false]
  rw [h]
  have hd : SEL_DESELECT ≠ SEL_TOGGLE := by decide
  refine ⟨rfl, ?_, ?_, rfl⟩
  · obtain ⟨x, hx⟩ := pick_work_list_getElem? mt records sinfo deselect_all _ r hget
    refine ⟨flag_set (select_all_step mt sinfo SEL_DESELECT x), ?_, is_selected_flag_set _⟩
    unfold BLI_findlink
    rw [if_pos h0]
    show (List.modify flag_set clog_index.toNat _)[clog_index.toNat]? = _
    rw [List.getElem?_modify_eq, log_records_select_all_eq_map, if_neg hd,
      List.getElem?_map, hx]
    rfl
  · intro i x hi hx hv
    have hin : clog_index.toNat ≠ i := by
      intro hc
      apply hi
      rw [← hc]
      exact Int.toNat_of_nonneg h0
    show is_selected x = false
    have hx2 : (List.modify flag_set clog_index.toNat
        (log_records_select_all mt
          (if deselect_all = true then log_records_select_all mt records sinfo SEL_DESELECT
            else records) sinfo SEL_DESELECT))[i]? = some x := hx
    rw [List.getElem?_modify_ne _ _ hin] at hx2
    exact deselect_all_none_selected mt _ sinfo x (List.getElem?_mem hx2) hv

/-- C12 at a concrete input: `sample_pair` with the active index on the second record,
which is not selected; range Pick of the first record. -/
theorem pick_range_active_unselected_witness :
    (select_clog_pick_exec sample_matcher sample_pair { sample_view with active_index := 1 }
      0 false true false).2.2.active_index = 0 :=
  (pick_range_active_unselected sample_matcher sample_pair
    { sample_view with active_index := 1 } 0 false false (sample_record .INFO 1)
    (sample_record .WARN 0) (by decide) (by decide) (by decide)).2.2.2

/-- C13: a Pick with no modifiers (`extend`, `extend_range` and `deselect_all` all
false) on an index `p` that resolves to a record, while an active record exists, returns
FINISHED, leaves the picked record selected and the active index equal to `p`, and
leaves the record at every other position as it was. -/
theorem pick_plain (mt : Matcher) (records : List CLG_LogRecord) (sinfo : SpaceInfo)
    (clog_index : Int) (r ra : CLG_LogRecord)
    (hpick : BLI_findlink records clog_index = some r)
    (hactive : BLI_findlink records sinfo.active_index = some ra) :
    (select_clog_pick_exec mt records sinfo clog_index false false false).1 =
      OPERATOR_FINISHED ∧
    (∃ r2,
      BLI_findlink (select_clog_pick_exec mt records sinfo clog_index false false false).2.1
        clog_index = some r2 ∧
      is_selected r2 = true) ∧
    (select_clog_pick_exec mt records sinfo clog_index false false false).2.2.active_index =
      clog_index ∧
    (∀ i : Nat, (i : Int) ≠ clog_index →
      (select_clog_pick_exec mt records sinfo clog_index false false false).2.1[i]? =
        records[i]?) := by
  obtain ⟨h0, hne, hget⟩ := BLI_findlink_some records clog_index r hpick
  have h : select_clog_pick_exec mt records sinfo clog_index false false false =
      (OPERATOR_FINISHED, records.modify flag_set clog_index.toNat,
        { sinfo with active_index := clog_index }) := by
    unfold select_clog_pick_exec
    rw [if_neg hne, hpick]
    simp [hactive]
  rw [h]
  refine ⟨rfl, ⟨flag_set r, ?_, is_selected_flag_set r⟩, rfl, ?_⟩
  · unfold BLI_findlink
    rw [if_pos h0]
    show (List.modify flag_set clog_index.toNat records)[clog_index.toNat]? = _
    rw [List.getElem?_modify_eq, hget]
    rfl
  · intro i hi
    have hin : clog_index.toNat ≠ i := by
      intro hc
      apply hi
      rw [← hc]
      exact Int.toNat_of_nonneg h0
    exact List.getElem?_modify_ne _ _ hin

/-- C13 at a concrete input: plain Pick of the second record of `sample_pair`. -/
theorem pick_plain_witness :
    (select_clog_pick_exec sample_matcher sample_pair sample_view 1 false false false).1 =
      OPERATOR_FINISHED :=
  (pick_plain sample_matcher sample_pair sample_view 1 (sample_record .WARN 0)
    (sample_record .INFO 1) (by decide) (by decide)).1

/-- C20 on the code: under `sample_view_no_warn` the second record of `sample_gap` is
not visible and not selected. A range Pick of the first record, with the active record
at position 2 selected, walks from 0 to 2 and sets the flag of every record on the way,
the hidden one included. -/
theorem pick_range_selects_hidden :
    is_clog_record_visible sample_matcher (sample_record .WARN 0) sample_view_no_warn =
      false ∧
    sample_gap[1]? = some (sample_record .WARN 0) ∧
    is_selected (sample_record .WARN 0) = false ∧
    select_clog_pick_exec sample_matcher sample_gap sample_view_no_warn 0 false true false =
      (OPERATOR_FINISHED,
        [sample_record .INFO 1, sample_record .WARN 1, sample_record .ERROR 1],
        sample_view_no_warn) ∧
    is_selected (sample_record .WARN 1) = true := by
  decide

/-! ### Box select -/

theorem box_pre_deselect_eq_map (mt : Matcher) (v : SpaceInfo) (l : List CLG_LogRecord) :
    box_pre_deselect mt v l = l.map (select_all_step mt v SEL_DESELECT) := by
  induction l with
  | nil => rfl
  | cons r rest ih =>
    simp only [box_pre_deselect, List.map_cons, ih]
    cases hv : is_clog_record_visible mt r v
    · rw [select_all_step_hidden mt v _ r hv]; rfl
    · rw [select_all_step_deselect mt v r hv]; rfl

theorem box_select_step_hidden (mt : Matcher) (v : SpaceInfo) (select : Bool)
    (r : CLG_LogRecord) (h : is_clog_record_visible mt r v = false) :
    box_select_step mt v select r = r := by
  simp [box_select_step, h]

theorem box_select_step_visible (mt : Matcher) (v : SpaceInfo) (select : Bool)
    (r : CLG_LogRecord) (h : is_clog_record_visible mt r v = true) :
    is_selected (box_select_step mt v select r) = select := by
  cases select
  · have : box_select_step mt v false r = flag_clear r := by
      simp [box_select_step, h, SET_FLAG_FROM_TEST, flag_clear]
    rw [this, is_selected_flag_clear]
  · have : box_select_step mt v true r = flag_set r := by
      simp [box_select_step, h, SET_FLAG_FROM_TEST, flag_set]
    rw [this, is_selected_flag_set]

/-- The records on which `box_select_exec` works after the optional pre-deselect pass:
position by position a visible record has lost its selection bit when the mode is SET,
and every other record is as it was. -/
theorem box_work_list_getElem? (mt : Matcher) (records : List CLG_LogRecord)
    (v : SpaceInfo) (sel_op : Int) (i : Nat) :
    (if SEL_OP_USE_PRE_DESELECT sel_op = true then box_pre_deselect mt v records
      else records)[i]? =
      records[i]?.map (fun r =>
        if sel_op = SEL_OP_SET then select_all_step mt v SEL_DESELECT r else r) := by
  unfold SEL_OP_USE_PRE_DESELECT
  by_cases h : sel_op = SEL_OP_SET
  · simp [h, box_pre_deselect_eq_map]
  · simp [h]

/-- C14, as stated, fails: under `sample_view_no_warn` the WARN record of
`sample_hidden_selected` is not visible; a box select in SET mode with neither bound
resolved returns FINISHED and leaves that record selected. -/
theorem box_select_empty_counterexample :
    box_select_exec sample_matcher sample_hidden_selected sample_view_no_warn SEL_OP_SET
        none none =
      some (OPERATOR_FINISHED, [sample_record .WARN 1, sample_record .INFO 0]) ∧
    is_selected (sample_record .WARN 1) = true := by
  decide

/-- C14, amended: for every record list, view state and selection mode, when neither
bound of the rectangle resolves to a record, `box_select_exec` returns FINISHED and
afterwards no visible record of the list is selected; a record that is not visible is
left as it was. -/
theorem box_select_empty (mt : Matcher) (records : List CLG_LogRecord) (sinfo : SpaceInfo)
    (sel_op : Int) :
    ∃ out, box_select_exec mt records sinfo sel_op none none =
        some (OPERATOR_FINISHED, out) ∧
      out.length = records.length ∧
      (∀ r ∈ out, is_clog_record_visible mt r sinfo = true → is_selected r = false) ∧
      (∀ (i : Nat) (x : CLG_LogRecord), records[i]? = some x →
        is_clog_record_visible mt x sinfo = false → out[i]? = some x) := by
  have hd : SEL_DESELECT ≠ SEL_TOGGLE := by decide
  refine ⟨_, rfl, ?_, deselect_all_none_selected mt _ sinfo, ?_⟩
  · rw [log_records_select_all_eq_map, List.length_map]
    unfold SEL_OP_USE_PRE_DESELECT
    by_cases h : sel_op = SEL_OP_SET
    · simp [h, box_pre_deselect_eq_map]
    · simp [h]
  · intro i x hx hv
    rw [log_records_select_all_eq_map, if_neg hd, List.getElem?_map,
      box_work_list_getElem?, hx]
    by_cases h : sel_op = SEL_OP_SET
    · simp [h, select_all_step_hidden mt sinfo _ x hv]
    · simp [h, select_all_step_hidden mt sinfo _ x hv]

/-- C14, amended, at a concrete input: after the box select on `sample_hidden_selected`
the visible INFO record is not selected. -/
theorem box_select_empty_witness :
    ∃ out, box_select_exec sample_matcher sample_hidden_selected sample_view_no_warn
        SEL_OP_SET none none = some (OPERATOR_FINISHED, out) ∧ out.length = 2 :=
  let ⟨out, h1, h2, _⟩ :=
    box_select_empty sample_matcher sample_hidden_selected sample_view_no_warn SEL_OP_SET
  ⟨out, h1, h2⟩

/-- The range loop of `box_select_exec`, started at or before the record after
`record_max` on a suffix that reaches `record_max`, ends without running off the list;
it applies the loop body to the records up to position `max` and to no other. -/
theorem box_select_loop_some (mt : Matcher) (v : SpaceInfo) (select : Bool) (max : Nat)
    (l : List CLG_LogRecord) :
    ∀ pos : Nat, pos ≤ max + 1 → max + 1 ≤ pos + l.length →
      ∃ out, box_select_loop mt v select max pos l = some out ∧
        ∀ j : Nat, out[j]? =
          if pos + j ≤ max then l[j]?.map (box_select_step mt v select) else l[j]? := by
  induction l with
  | nil =>
    intro pos h1 h2
    have hp : pos = max + 1 := by simp at h2; omega
    exact ⟨[], by simp [box_select_loop, hp], by intro j; simp⟩
  | cons x rest ih =>
    intro pos h1 h2
    unfold box_select_loop
    by_cases hstop : pos = max + 1
    · refine ⟨x :: rest, by rw [if_pos hstop], ?_⟩
      intro j
      rw [if_neg (by omega)]
    · have hlen : max + 1 ≤ pos + 1 + rest.length := by
        simp only [List.length_cons] at h2; omega
      obtain ⟨tail, ht, hj⟩ := ih (pos + 1) (by omega) hlen
      refine ⟨box_select_step mt v select x :: tail, by rw [if_neg hstop, ht], ?_⟩
      intro j
      cases j with
      | zero =>
        rw [if_pos (by omega)]
        simp
      | succ k =>
        simp only [List.getElem?_cons_succ]
        rw [hj k]
        by_cases hk : pos + 1 + k ≤ max
        · rw [if_pos hk, if_pos (by omega)]
        · rw [if_neg hk, if_neg (by omega)]

/-- C15: when the top bound resolves to the record at position `t` and the bottom bound
to the record at position `b` with `t <= b`, `box_select_exec` returns FINISHED (the
range loop reaches `b` and stops, it does not run off the list) and, position by
position: a visible record in `[t, b]` ends deselected when the mode is SUB and
selected otherwise; a visible record outside `[t, b]` ends deselected in SET mode and
is unchanged in every other mode (ADD and SUB among them); a record that is not visible
is unchanged. -/
theorem box_select_range (mt : Matcher) (records : List CLG_LogRecord) (sinfo : SpaceInfo)
    (sel_op : Int) (t b : Nat) (htb : t ≤ b) (hb : b < records.length) :
    ∃ out, box_select_exec mt records sinfo sel_op (some t) (some b) =
        some (OPERATOR_FINISHED, out) ∧
      ∀ (i : Nat) (x : CLG_LogRecord), records[i]? = some x →
        ∃ x2, out[i]? = some x2 ∧
          (is_clog_record_visible mt x sinfo = true → t ≤ i ∧ i ≤ b →
            is_selected x2 = (sel_op != SEL_OP_SUB)) ∧
          (is_clog_record_visible mt x sinfo = true → ¬ (t ≤ i ∧ i ≤ b) →
            (sel_op = SEL_OP_SET → is_selected x2 = false) ∧
            (sel_op ≠ SEL_OP_SET → x2 = x)) ∧
          (is_clog_record_visible mt x sinfo = false → x2 = x) := by
  have hlen : (if SEL_OP_USE_PRE_DESELECT sel_op = true then box_pre_deselect mt sinfo records
      else records).length = records.length := by
    unfold SEL_OP_USE_PRE_DESELECT
    by_cases h : sel_op = SEL_OP_SET
    · simp [h, box_pre_deselect_eq_map]
    · simp [h]
  obtain ⟨tail, htail, hj⟩ := box_select_loop_some mt sinfo (sel_op != SEL_OP_SUB) b
    ((if SEL_OP_USE_PRE_DESELECT sel_op = true then box_pre_deselect mt sinfo records
      else records).drop t) t (by omega) (by rw [List.length_drop, hlen]; omega)
  refine ⟨List.take t (if SEL_OP_USE_PRE_DESELECT sel_op = true then
      box_pre_deselect mt sinfo records else records) ++ tail,
    by simp [box_select_exec, htail], ?_⟩
  intro i x hx
  have hwork := box_work_list_getElem? mt records sinfo sel_op i
  rw [hx, Option.map_some'] at hwork
  have hilt : i < records.length := (List.getElem?_eq_some.1 hx).1
  have htake : (List.take t (if SEL_OP_USE_PRE_DESELECT sel_op = true then
      box_pre_deselect mt sinfo records else records)).length = t := by
    rw [List.length_take, hlen]; omega
  by_cases hit : i < t
  · refine ⟨(if sel_op = SEL_OP_SET then select_all_step mt sinfo SEL_DESELECT x else x),
      ?_, ?_, ?_, ?_⟩
    · rw [List.getElem?_append_left (by rw [htake]; exact hit),
        List.getElem?_take_of_lt hit, hwork]
    · intro _ hin; omega
    · intro hv _
      constructor
      · intro hset
        rw [if_pos hset, select_all_step_deselect mt sinfo x hv, is_selected_flag_clear]
      · intro hset
        rw [if_neg hset]
    · intro hv
      rw [select_all_step_hidden mt sinfo _ x hv]
      split <;> rfl
  · have hget : (List.take t (if SEL_OP_USE_PRE_DESELECT sel_op = true then
        box_pre_deselect mt sinfo records else records) ++ tail)[i]? =
        if t + (i - t) ≤ b then
          (some (if sel_op = SEL_OP_SET then select_all_step mt sinfo SEL_DESELECT x
            else x)).map (box_select_step mt sinfo (sel_op != SEL_OP_SUB))
        else some (if sel_op = SEL_OP_SET then select_all_step mt sinfo SEL_DESELECT x
            else x) := by
      rw [List.getElem?_append_right (by rw [htake]; omega), htake, hj, List.getElem?_drop]
      have : t + (i - t) = i := by omega
      rw [this, hwork]
    have hvis : is_clog_record_visible mt
        (if sel_op = SEL_OP_SET then select_all_step mt sinfo SEL_DESELECT x else x) sinfo =
        is_clog_record_visible mt x sinfo := by
      split
      · rw [visible_select_all_step]
      · rfl
    have hhid : is_clog_record_visible mt x sinfo = false →
        (if sel_op = SEL_OP_SET then select_all_step mt sinfo SEL_DESELECT x else x) = x := by
      intro hv
      rw [select_all_step_hidden mt sinfo _ x hv]
      split <;> rfl
    by_cases hib : i ≤ b
    · refine ⟨box_select_step mt sinfo (sel_op != SEL_OP_SUB)
          (if sel_op = SEL_OP_SET then select_all_step mt sinfo SEL_DESELECT x else x),
        by rw [hget, if_pos (by omega)]; rfl, ?_, ?_, ?_⟩
      · intro hv _
        exact box_select_step_visible mt sinfo _ _ (by rw [hvis]; exact hv)
      · intro _ hn
        exact absurd ⟨by omega, hib⟩ hn
      · intro hv
        rw [box_select_step_hidden mt sinfo _ _ (by rw [hvis]; exact hv)]
        exact hhid hv
    · refine ⟨(if sel_op = SEL_OP_SET then select_all_step mt sinfo SEL_DESELECT x else x),
        by rw [hget, if_neg (by omega)], ?_, ?_, hhid⟩
      · intro _ hin; omega
      · intro hv _
        constructor
        · intro hset
          rw [if_pos hset, select_all_step_deselect mt sinfo x hv, is_selected_flag_clear]
        · intro hset
          rw [if_neg hset]

/-- C15 at a concrete input: box select in SUB mode over positions 0 to 2 of
`sample_gap`. -/
theorem box_select_range_witness :
    ∃ out, box_select_exec sample_matcher sample_gap sample_view_no_warn SEL_OP_SUB
        (some 0) (some 2) = some (OPERATOR_FINISHED, out) :=
  let ⟨out, h1, _⟩ :=
    box_select_range sample_matcher sample_gap sample_view_no_warn SEL_OP_SUB 0 2
      (by decide) (by decide)
  ⟨out, h1⟩

theorem box_work_list_eq_map (mt : Matcher) (records : List CLG_LogRecord)
    (v : SpaceInfo) (sel_op : Int) :
    (if SEL_OP_USE_PRE_DESELECT sel_op = true then box_pre_deselect mt v records
      else records) =
      records.map (fun r =>
        if sel_op = SEL_OP_SET then select_all_step mt v SEL_DESELECT r else r) := by
  unfold SEL_OP_USE_PRE_DESELECT
  by_cases h : sel_op = SEL_OP_SET
  · simp [h, box_pre_deselect_eq_map]
  · simp [h]

theorem box_work_step_visible (mt : Matcher) (v : SpaceInfo) (sel_op : Int)
    (r : CLG_LogRecord) :
    is_clog_record_visible mt
        (if sel_op = SEL_OP_SET then select_all_step mt v SEL_DESELECT r else r) v =
      is_clog_record_visible mt r v := by
  split
  · rw [visible_select_all_step]
  · rfl

/-- The forward search of `box_select_exec` finds the first visible record. -/
theorem find_min_eq (mt : Matcher) (v : SpaceInfo) (l : List CLG_LogRecord) :
    ∀ (pos f : Nat) (x : CLG_LogRecord), l[f]? = some x →
      is_clog_record_visible mt x v = true →
      (∀ (j : Nat) (y : CLG_LogRecord), j < f → l[j]? = some y →
        is_clog_record_visible mt y v = false) →
      find_min mt v pos l = some (pos + f) := by
  induction l with
  | nil => intro pos f x hx; simp at hx
  | cons r rest ih =>
    intro pos f x hx hv hbefore
    unfold find_min
    cases f with
    | zero =>
      simp only [List.getElem?_cons_zero, Option.some.injEq] at hx
      rw [hx, hv]
      simp
    | succ k =>
      have hr := hbefore 0 r (by omega) (by simp)
      rw [hr]
      simp only [Bool.false_eq_true, if_false]
      rw [ih (pos + 1) k x (by simpa using hx) hv
        (fun j y hj hy => hbefore (j + 1) y (by omega) (by simpa using hy))]
      congr 1
      omega

/-- The backward search of `box_select_exec` finds the last visible record. -/
theorem find_max_eq (mt : Matcher) (v : SpaceInfo) (l : List CLG_LogRecord) :
    ∀ (f : Nat) (x : CLG_LogRecord), l[f]? = some x →
      is_clog_record_visible mt x v = true →
      (∀ (j : Nat) (y : CLG_LogRecord), f < j → l[j]? = some y →
        is_clog_record_visible mt y v = false) →
      find_max mt v l.reverse = some f := by
  induction l using List.reverseRecOn with
  | nil => intro f x hx; simp at hx
  | append_singleton init r ih =>
    intro f x hx hv hafter
    rw [List.reverse_append, List.reverse_singleton, List.singleton_append]
    unfold find_max
    have hf : f < init.length + 1 := by
      have := (List.getElem?_eq_some.1 hx).1
      simpa using this
    by_cases hlast : f = init.length
    · have hxr : x = r := by
        rw [hlast, List.getElem?_append_right (Nat.le_refl _)] at hx
        simpa using hx.symm
      rw [← hxr, hv]
      simp [hlast]
    · have hflt : f < init.length := by omega
      have hr : is_clog_record_visible mt r v = false :=
        hafter init.length r hflt (by simp)
      rw [hr]
      simp only [Bool.false_eq_true, if_false]
      apply ih f x
      · rw [List.getElem?_append_left hflt] at hx; exact hx
      · exact hv
      · intro j y hj hy
        have hjlt : j < init.length := (List.getElem?_eq_some.1 hy).1
        exact hafter j y hj (by rw [List.getElem?_append_left hjlt]; exact hy)

theorem find_min_map (mt : Matcher) (v : SpaceInfo) (g : CLG_LogRecord → CLG_LogRecord)
    (hg : ∀ r, is_clog_record_visible mt (g r) v = is_clog_record_visible mt r v)
    (l : List CLG_LogRecord) :
    ∀ pos : Nat, find_min mt v pos (l.map g) = find_min mt v pos l := by
  induction l with
  | nil => intro pos; rfl
  | cons r rest ih =>
    intro pos
    simp only [List.map_cons, find_min, hg, ih]

theorem find_max_map (mt : Matcher) (v : SpaceInfo) (g : CLG_LogRecord → CLG_LogRecord)
    (hg : ∀ r, is_clog_record_visible mt (g r) v = is_clog_record_visible mt r v)
    (l : List CLG_LogRecord) :
    find_max mt v (l.map g) = find_max mt v l := by
  induction l with
  | nil => rfl
  | cons r rest ih =>
    simp only [List.map_cons, find_max, hg, ih, List.length_map]

/-- C16: when the top bound fails to resolve and the bottom bound resolves,
`box_select_exec` gives the result of the same call with the top bound on the first
visible record of the list; when the bottom bound fails to resolve and the top bound
resolves, it gives the result of the same call with the bottom bound on the last
visible record of the list. -/
theorem box_select_fallback (mt : Matcher) (records : List CLG_LogRecord)
    (sinfo : SpaceInfo) (sel_op : Int) :
    (∀ (b f : Nat) (x : CLG_LogRecord), records[f]? = some x →
      is_clog_record_visible mt x sinfo = true →
      (∀ (j : Nat) (y : CLG_LogRecord), j < f → records[j]? = some y →
        is_clog_record_visible mt y sinfo = false) →
      box_select_exec mt records sinfo sel_op none (some b) =
        box_select_exec mt records sinfo sel_op (some f) (some b)) ∧
    (∀ (t l : Nat) (x : CLG_LogRecord), records[l]? = some x →
      is_clog_record_visible mt x sinfo = true →
      (∀ (j : Nat) (y : CLG_LogRecord), l < j → records[j]? = some y →
        is_clog_record_visible mt y sinfo = false) →
      box_select_exec mt records sinfo sel_op (some t) none =
        box_select_exec mt records sinfo sel_op (some t) (some l)) := by
  constructor
  · intro b f x hx hv hbefore
    have hmin := find_min_eq mt sinfo records 0 f x hx hv hbefore
    rw [Nat.zero_add] at hmin
    unfold box_select_exec
    simp only [box_work_list_eq_map,
      find_min_map mt sinfo _ (box_work_step_visible mt sinfo sel_op) records, hmin,
      Option.isNone_none, Option.isNone_some, Bool.and_false, Bool.false_and,
      Bool.false_eq_true, if_false]
  · intro t l x hx hv hafter
    have hmax := find_max_eq mt sinfo records l x hx hv hafter
    unfold box_select_exec
    simp only [box_work_list_eq_map, ← List.map_reverse,
      find_max_map mt sinfo _ (box_work_step_visible mt sinfo sel_op), hmax,
      Option.isNone_none, Option.isNone_some, Bool.and_false, Bool.false_and,
      Bool.false_eq_true, if_false]

/-- C16 at a concrete input: in `sample_gap` under `sample_view_no_warn` the last
visible record is at position 2; a box select whose bottom bound does not resolve acts
as one with the bottom bound at 2. -/
theorem box_select_fallback_witness :
    box_select_exec sample_matcher sample_gap sample_view_no_warn SEL_OP_ADD (some 1) none =
      box_select_exec sample_matcher sample_gap sample_view_no_warn SEL_OP_ADD (some 1)
        (some 2) :=
  (box_select_fallback sample_matcher sample_gap sample_view_no_warn SEL_OP_ADD).2 1 2
    (sample_record .ERROR 1) (by decide) (by decide)
    (fun j y hj hy => by
      have hlt : j < sample_gap.length := (List.getElem?_eq_some.1 hy).1
      have h3 : sample_gap.length = 3 := rfl
      omega)

/-! ### Filter builder -/

/-- Started inside the string with a separator below the start, the backward scan ends
on the last separator below the start. -/
theorem file_name_scan_spec (l : List Char) :
    ∀ n : Nat, (∃ k, k < n ∧ l[k]? = some ':') →
      ∃ m, file_name_scan l n = some (m + 1) ∧ m < n ∧ l[m]? = some ':' ∧
        ∀ j, m < j → j < n → l[j]? ≠ some ':' := by
  intro n
  induction n with
  | zero => intro ⟨k, hk, _⟩; omega
  | succ n ih =>
    intro ⟨k, hk, hsep⟩
    unfold file_name_scan
    by_cases hn : l[n]? = some ':'
    · exact ⟨n, by rw [if_pos hn], by omega, hn, fun j h1 h2 => by omega⟩
    · have hkn : k ≠ n := fun h => hn (h ▸ hsep)
      obtain ⟨m, hm, hlt, hget, hafter⟩ := ih ⟨k, by omega, hsep⟩
      refine ⟨m, by rw [if_neg hn, hm], by omega, hget, ?_⟩
      intro j h1 h2
      by_cases hjn : j = n
      · rw [hjn]; exact hn
      · exact hafter j h1 (by omega)

/-- The pattern of the File mode: when the basename has a separator, the scan ends on
the last one and the copy keeps the characters in front of it. -/
theorem file_name_scan_split (basename : String) (hsep : ':' ∈ basename.data) :
    ∃ pre suf, basename.data = pre ++ ':' :: suf ∧ ':' ∉ suf ∧
      file_name_scan basename.data basename.length = some (pre.length + 1) ∧
      BLI_strncpy basename (pre.length + 1) = String.mk pre := by
  obtain ⟨k, hk⟩ := List.mem_iff_getElem?.1 hsep
  have hklt : k < basename.data.length := (List.getElem?_eq_some.1 hk).1
  obtain ⟨m, hm, hlt, hget, hafter⟩ :=
    file_name_scan_spec basename.data basename.data.length ⟨k, hklt, hk⟩
  have hmget : basename.data[m] = ':' := by
    have := List.getElem?_eq_some.1 hget
    obtain ⟨_, h⟩ := this
    exact h
  have hsplit : basename.data =
      basename.data.take m ++ ':' :: basename.data.drop (m + 1) := by
    conv_lhs => rw [← List.take_append_drop m basename.data]
    rw [List.drop_eq_getElem_cons hlt, hmget]
  have hlen : (basename.data.take m).length = m := by
    rw [List.length_take]; omega
  refine ⟨basename.data.take m, basename.data.drop (m + 1), hsplit, ?_, ?_, ?_⟩
  · intro hmem
    obtain ⟨j, hj⟩ := List.mem_iff_getElem?.1 hmem
    rw [List.getElem?_drop] at hj
    have hjlt : m + 1 + j < basename.data.length := (List.getElem?_eq_some.1 hj).1
    exact hafter (m + 1 + j) (by omega) hjlt hj
  · rw [hlen]; exact hm
  · rw [hlen]; rfl

/-- The File mode on a record whose path portion fits the pattern array. For a visible
selected record whose `file_line` basename contains the separator `:` and whose text in
front of the last `:` is shorter than the array, the backward scan ends inside the
string, on the last separator: the basename is `pre ++ ":" ++ suf` with no `:` in `suf`.
The criterion that `clog_filter_exec` builds has the pattern `pre`: it is the criterion
handed to the duplicate test, appended to the file-line list when the test finds
nothing, and named in the notice when the test finds an entry. -/
theorem file_filter_pattern (mt : Matcher) (path_basename : String → String)
    (search_string_size : Nat) (record : CLG_LogRecord) (sinfo : SpaceInfo)
    (reports : List String)
    (hvis : is_clog_record_visible mt record sinfo = true)
    (hsel : is_selected record = true)
    (hsep : ':' ∈ (path_basename record.file_line).data)
    (hfit : ∀ pre suf : List Char,
      (path_basename record.file_line).data = pre ++ ':' :: suf → ':' ∉ suf →
      pre.length < search_string_size) :
    ∃ pre suf, (path_basename record.file_line).data = pre ++ ':' :: suf ∧ ':' ∉ suf ∧
      file_name_scan (path_basename record.file_line).data
        (path_basename record.file_line).length = some (pre.length + 1) ∧
      filter_pattern path_basename search_string_size CLOG_FILTER_FILE record =
        some (String.mk pre) ∧
      (is_filter_duplicate mt sinfo.filter_log_file_line
          { search_string := String.mk pre
            flag := INFO_FILTER_USE_MATCH_CASE ||| INFO_FILTER_USE_MATCH_REVERSE } = none →
        clog_filter_exec mt path_basename search_string_size CLOG_FILTER_FILE [record] sinfo
            reports =
          some (OPERATOR_FINISHED,
            { sinfo with
              filter_log_file_line := sinfo.filter_log_file_line ++
                [{ search_string := String.mk pre
                   flag := INFO_FILTER_USE_MATCH_CASE ||| INFO_FILTER_USE_MATCH_REVERSE }]
              use_log_filter := sinfo.use_log_filter ||| INFO_FILTER_CLOG_FILE_LINE },
            reports)) ∧
      (∀ filter_dup, is_filter_duplicate mt sinfo.filter_log_file_line
          { search_string := String.mk pre
            flag := INFO_FILTER_USE_MATCH_CASE ||| INFO_FILTER_USE_MATCH_REVERSE } =
            some filter_dup →
        clog_filter_exec mt path_basename search_string_size CLOG_FILTER_FILE [record] sinfo
            reports =
          some (OPERATOR_FINISHED,
            { sinfo with
              use_log_filter := sinfo.use_log_filter ||| INFO_FILTER_CLOG_FILE_LINE },
            reports ++ ["File filter: " ++ String.mk pre ++ " is duplicate of filter: " ++
              filter_dup.search_string])) := by
  obtain ⟨pre, suf, hsplit, hsuf, hscan, hcopy⟩ :=
    file_name_scan_split (path_basename record.file_line) hsep
  have hle : pre.length + 1 ≤ search_string_size := hfit pre suf hsplit hsuf
  have hpat : filter_pattern path_basename search_string_size CLOG_FILTER_FILE record =
      some (String.mk pre) := by
    unfold filter_pattern
    rw [if_pos rfl, hscan]
    simp only [if_pos hle, hcopy]
  refine ⟨pre, suf, hsplit, hsuf, hscan, hpat, ?_, ?_⟩
  · intro hdup
    unfold clog_filter_exec clog_filter_loop clog_filter_record
    simp only [hvis, hsel, Bool.and_self, if_true, hpat, hdup]
    rfl
  · intro filter_dup hdup
    unfold clog_filter_exec clog_filter_loop clog_filter_record
    simp only [hvis, hsel, Bool.and_self, if_true, hpat, hdup]
    rfl

/-- The File mode at a concrete input: a selected record with `file_line`
`wm_files.c:12` and an array of 64 characters. -/
theorem file_filter_pattern_witness :
    ∃ pre suf, (sample_basename (sample_record .INFO 1).file_line).data = pre ++ ':' :: suf ∧
      ':' ∉ suf ∧
      filter_pattern sample_basename 64 CLOG_FILTER_FILE (sample_record .INFO 1) =
        some (String.mk pre) :=
  let ⟨pre, suf, h1, h2, _, h4, _⟩ :=
    file_filter_pattern sample_matcher sample_basename 64 (sample_record .INFO 1) sample_view
      [] (by decide) (by decide) (by decide)
      (fun pre suf h _ => by
        have hlen := congrArg List.length h
        have h13 : (sample_basename (sample_record .INFO 1).file_line).data.length = 13 := by
          decide
        rw [h13, List.length_append, List.length_cons] at hlen
        omega)
  ⟨pre, suf, h1, h2, h4⟩

/-- C17 on the code: `sample_long_path` is visible and selected, and the basename of its
`file_line` contains the separator, with 82 characters in front of it. In File mode the
scan ends with `file_name_len = 83`, and the copy of line 585 then writes 83 bytes into
the array of 64: the call derives no criterion, it runs past the array. -/
theorem file_filter_overflow :
    is_clog_record_visible sample_matcher sample_long_path sample_view = true ∧
    is_selected sample_long_path = true ∧
    ':' ∈ (sample_basename sample_long_path.file_line).data ∧
    file_name_scan (sample_basename sample_long_path.file_line).data
        (sample_basename sample_long_path.file_line).length = some 83 ∧
    filter_pattern sample_basename 64 CLOG_FILTER_FILE sample_long_path = none ∧
    clog_filter_exec sample_matcher sample_basename 64 CLOG_FILTER_FILE [sample_long_path]
        sample_view [] = none := by
  decide

/-- The File pattern of a record with `file_line` `wm_files.c:12` is `wm_files.c`. -/
theorem filter_pattern_sample :
    filter_pattern sample_basename 64 CLOG_FILTER_FILE (sample_record .INFO 1) =
      some "wm_files.c" := by
  decide

/-- Setting one bit of a flag word leaves the test of every other bit as it was. -/
theorem or_two_pow_and_other (u i j : Nat) (h : i ≠ j) :
    ((u ||| 2 ^ i) &&& 2 ^ j) = (u &&& 2 ^ j) := by
  apply Nat.eq_of_testBit_eq
  intro k
  rw [Nat.testBit_and, Nat.testBit_and, Nat.testBit_or, Nat.testBit_two_pow,
    Nat.testBit_two_pow]
  by_cases hjk : j = k
  · have hik : ¬ i = k := fun hik => h (hik.trans hjk.symm)
    simp [hik]
  · simp [hjk]

/-- Setting one bit of a flag word leaves that bit set. -/
theorem or_two_pow_and_self (u i : Nat) : ((u ||| 2 ^ i) &&& 2 ^ i) ≠ 0 := by
  rw [ne_eq, and_two_pow_eq_zero_iff, Nat.testBit_or, Nat.testBit_two_pow_self]
  simp

/-- The duplicate check reads only the pattern of the new criterion. -/
theorem is_filter_duplicate_of_mem (mt : Matcher) (l : List SpaceInfoFilter)
    (filter e : SpaceInfoFilter) (he : e ∈ l)
    (hmatch : mt e.search_string filter.search_string
      ((e.flag &&& INFO_FILTER_USE_MATCH_CASE) != 0)
      ((e.flag &&& INFO_FILTER_USE_GLOB) != 0) false = true) :
    ∃ dup, is_filter_duplicate mt l filter = some dup := by
  induction l with
  | nil => simp at he
  | cons x rest ih =>
    unfold is_filter_duplicate
    by_cases hx : mt x.search_string filter.search_string
        ((x.flag &&& INFO_FILTER_USE_MATCH_CASE) != 0)
        ((x.flag &&& INFO_FILTER_USE_GLOB) != 0) false = true
    · exact ⟨x, by rw [if_pos hx]⟩
    · rw [if_neg hx]
      rcases List.mem_cons.1 he with h | h
      · rw [h] at hmatch; exact absurd hmatch hx
      · exact ih h

/-- The body of the filter loop on a record whose criterion the duplicate check
rejects: the three lists stay, the enable flag of the mode is or-ed into
`use_log_filter`, and one notice is added. -/
theorem clog_filter_record_duplicate (mt : Matcher) (path_basename : String → String)
    (search_string_size : Nat) (filter_type : Int) (record : CLG_LogRecord)
    (sinfo : SpaceInfo) (reports : List String) (p : String) (dup : SpaceInfoFilter)
    (hpat : filter_pattern path_basename search_string_size filter_type record = some p)
    (hdup : is_filter_duplicate mt (filter_target_list filter_type sinfo)
      { search_string := p
        flag := INFO_FILTER_USE_MATCH_CASE ||| INFO_FILTER_USE_MATCH_REVERSE } = some dup) :
    ∃ msg, clog_filter_record mt path_basename search_string_size filter_type record sinfo
        reports =
      some ({ sinfo with
              use_log_filter := sinfo.use_log_filter ||| filter_enable_flag filter_type },
            reports ++ [msg]) := by
  unfold filter_target_list at hdup
  unfold clog_filter_record filter_enable_flag
  by_cases h1 : filter_type = CLOG_FILTER_FILE
  · rw [if_pos h1] at hdup
    simp only [if_pos h1, hpat, hdup]
    exact ⟨_, rfl⟩
  · rw [if_neg h1] at hdup
    simp only [if_neg h1]
    by_cases h2 : filter_type = CLOG_FILTER_LINE
    · rw [if_pos h2] at hdup
      simp only [if_pos h2, hpat, hdup]
      exact ⟨_, rfl⟩
    · rw [if_neg h2] at hdup
      simp only [if_neg h2]
      by_cases h3 : filter_type = CLOG_FILTER_FUNCTION
      · rw [if_pos h3] at hdup
        simp only [if_pos h3, hpat, hdup]
        exact ⟨_, rfl⟩
      · rw [if_neg h3] at hdup
        simp only [if_neg h3]
        by_cases h4 : filter_type = CLOG_FILTER_LOG_TYPE
        · rw [if_pos h4] at hdup
          simp only [if_pos h4, hpat, hdup]
          exact ⟨_, rfl⟩
        · unfold filter_pattern at hpat
          rw [if_neg h1, if_neg h2, if_neg h3, if_neg h4] at hpat
          exact Option.noConfusion hpat

/-- Turning on the file-line category hides records, it shows none. -/
theorem visible_of_visible_file_line (mt : Matcher) (x : CLG_LogRecord) (v : SpaceInfo)
    (h : is_clog_record_visible mt x
      { v with use_log_filter := v.use_log_filter ||| INFO_FILTER_CLOG_FILE_LINE } = true) :
    is_clog_record_visible mt x v = true := by
  rw [visible_eq] at h ⊢
  have e1 : ((v.use_log_filter ||| INFO_FILTER_CLOG_FILE_LINE) &&& INFO_FILTER_CLOG_LEVEL) =
      (v.use_log_filter &&& INFO_FILTER_CLOG_LEVEL) := or_two_pow_and_other _ 3 0 (by decide)
  have e2 : ((v.use_log_filter ||| INFO_FILTER_CLOG_FILE_LINE) &&& INFO_FILTER_CLOG_TYPE) =
      (v.use_log_filter &&& INFO_FILTER_CLOG_TYPE) := or_two_pow_and_other _ 3 1 (by decide)
  have e3 : ((v.use_log_filter ||| INFO_FILTER_CLOG_FILE_LINE) &&&
      INFO_FILTER_CLOG_FUNCTION) = (v.use_log_filter &&& INFO_FILTER_CLOG_FUNCTION) :=
    or_two_pow_and_other _ 3 2 (by decide)
  have e4 : ((v.use_log_filter ||| INFO_FILTER_CLOG_FILE_LINE) &&&
      INFO_FILTER_CLOG_FILE_LINE) ≠ 0 := or_two_pow_and_self _ 3
  simp only [e1, e2, e3] at h
  simp only [Bool.and_eq_true, Bool.or_eq_true, beq_iff_eq, e4, false_or] at h ⊢
  obtain ⟨⟨⟨⟨⟨a, b⟩, c⟩, d⟩, e⟩, f⟩ := h
  exact ⟨⟨⟨⟨⟨a, b⟩, c⟩, d⟩, e⟩, Or.inr f⟩

/-- The filter loop passes over records that are not both visible and selected. -/
theorem clog_filter_loop_skip (mt : Matcher) (path_basename : String → String)
    (search_string_size : Nat) (filter_type : Int) (sinfo : SpaceInfo)
    (reports : List String) (l rest : List CLG_LogRecord)
    (hl : ∀ x ∈ l, (is_clog_record_visible mt x sinfo && is_selected x) = false) :
    clog_filter_loop mt path_basename search_string_size filter_type (l ++ rest) sinfo
        reports =
      clog_filter_loop mt path_basename search_string_size filter_type rest sinfo reports := by
  induction l with
  | nil => rfl
  | cons x xs ih =>
    have hx := hl x (List.mem_cons_self x xs)
    rw [List.cons_append, clog_filter_loop, hx]
    simp only [Bool.false_eq_true, if_false]
    exact ih (fun y hy => hl y (List.mem_cons_of_mem x hy))

/-- C18: when the file-line list already holds a case-sensitive, non-glob criterion
with pattern `p`, and exactly one record of the list is visible and selected and derives
the pattern `p` in File or Line mode, `clog_filter_exec` returns FINISHED with the
file-line list as it was and exactly one notice added. The string matcher is assumed to
match `p` against itself when case-sensitive, non-glob and not inverted. -/
theorem filter_duplicate_notice (mt : Matcher) (path_basename : String → String)
    (search_string_size : Nat) (filter_type : Int)
    (before : List CLG_LogRecord) (r : CLG_LogRecord) (after : List CLG_LogRecord)
    (sinfo : SpaceInfo) (reports : List String) (p : String) (e : SpaceInfoFilter)
    (hmode : filter_type = CLOG_FILTER_FILE ∨ filter_type = CLOG_FILTER_LINE)
    (he : e ∈ sinfo.filter_log_file_line) (hep : e.search_string = p)
    (hcase : (e.flag &&& INFO_FILTER_USE_MATCH_CASE) ≠ 0)
    (hglob : (e.flag &&& INFO_FILTER_USE_GLOB) = 0)
    (hmt : mt p p true false false = true)
    (hbefore : ∀ x ∈ before,
      (is_clog_record_visible mt x sinfo && is_selected x) = false)
    (hafter : ∀ x ∈ after, (is_clog_record_visible mt x sinfo && is_selected x) = false)
    (hvis : is_clog_record_visible mt r sinfo = true) (hsel : is_selected r = true)
    (hpat : filter_pattern path_basename search_string_size filter_type r = some p) :
    ∃ sinfo2 msg,
      clog_filter_exec mt path_basename search_string_size filter_type
          (before ++ r :: after) sinfo reports =
        some (OPERATOR_FINISHED, sinfo2, reports ++ [msg]) ∧
      sinfo2.filter_log_file_line = sinfo.filter_log_file_line := by
  have hlist : filter_target_list filter_type sinfo = sinfo.filter_log_file_line := by
    unfold filter_target_list
    rcases hmode with h | h <;> rw [h] <;> rfl
  have hflag : filter_enable_flag filter_type = INFO_FILTER_CLOG_FILE_LINE := by
    unfold filter_enable_flag
    rcases hmode with h | h <;> rw [h] <;> rfl
  have hmatch : mt e.search_string p ((e.flag &&& INFO_FILTER_USE_MATCH_CASE) != 0)
      ((e.flag &&& INFO_FILTER_USE_GLOB) != 0) false = true := by
    have h1 : ((e.flag &&& INFO_FILTER_USE_MATCH_CASE) != 0) = true := by
      simpa using hcase
    have h2 : ((e.flag &&& INFO_FILTER_USE_GLOB) != 0) = false := by
      simp [hglob]
    rw [h1, h2, hep]
    exact hmt
  obtain ⟨dup, hdup⟩ := is_filter_duplicate_of_mem mt sinfo.filter_log_file_line
    { search_string := p
      flag := INFO_FILTER_USE_MATCH_CASE ||| INFO_FILTER_USE_MATCH_REVERSE } e he hmatch
  obtain ⟨msg, hrec⟩ := clog_filter_record_duplicate mt path_basename search_string_size
    filter_type r sinfo reports p dup hpat (by rw [hlist]; exact hdup)
  rw [hflag] at hrec
  have hafter2 : ∀ x ∈ after,
      (is_clog_record_visible mt x
        { sinfo with
          use_log_filter := sinfo.use_log_filter ||| INFO_FILTER_CLOG_FILE_LINE } &&
        is_selected x) = false := by
    intro x hx
    have h0 := hafter x hx
    cases hv2 : is_clog_record_visible mt x
        { sinfo with use_log_filter := sinfo.use_log_filter ||| INFO_FILTER_CLOG_FILE_LINE }
    · rfl
    · rw [visible_of_visible_file_line mt x sinfo hv2] at h0
      exact h0
  have hloop_after := clog_filter_loop_skip mt path_basename search_string_size filter_type
    { sinfo with use_log_filter := sinfo.use_log_filter ||| INFO_FILTER_CLOG_FILE_LINE }
    (reports ++ [msg]) after [] hafter2
  rw [List.append_nil] at hloop_after
  refine ⟨{ sinfo with
      use_log_filter := sinfo.use_log_filter ||| INFO_FILTER_CLOG_FILE_LINE }, msg, ?_, rfl⟩
  unfold clog_filter_exec
  rw [clog_filter_loop_skip mt path_basename search_string_size filter_type sinfo reports
    before (r :: after) hbefore, clog_filter_loop, hvis, hsel]
  simp only [Bool.and_self, if_true, hrec, hloop_after]
  rfl

/-- C18 at a concrete input: `sample_pair` under `sample_view_file`, whose file-line
list holds the pattern `wm_files.c`; the first record is the only selected one and
derives that pattern in File mode. -/
theorem filter_duplicate_notice_witness :
    ∃ sinfo2 msg,
      clog_filter_exec sample_matcher sample_basename 64 CLOG_FILTER_FILE
          ([] ++ sample_record .INFO 1 :: [sample_record .WARN 0]) sample_view_file [] =
        some (OPERATOR_FINISHED, sinfo2, [] ++ [msg]) ∧
      sinfo2.filter_log_file_line = sample_view_file.filter_log_file_line :=
  filter_duplicate_notice sample_matcher sample_basename 64 CLOG_FILTER_FILE []
    (sample_record .INFO 1) [sample_record .WARN 0] sample_view_file [] "wm_files.c"
    { search_string := "wm_files.c", flag := 5 } (Or.inl rfl) (by decide) rfl (by decide)
    (by decide) (by decide) (by decide) (by decide) (by decide) (by decide) (by decide)

/-- C19, as stated, fails: under `sample_view_function` the function list holds the
pattern `wm_file_read` and no category is enabled. Processing a selected record with
that function in Function mode finds the duplicate, appends nothing, and turns the
enable flag of the function category on. -/
theorem filter_duplicate_counterexample :
    is_filter_duplicate sample_matcher sample_view_function.filter_log_function
        { search_string := "wm_file_read", flag := 5 } =
      some { search_string := "wm_file_read", flag := 5 } ∧
    sample_view_function.use_log_filter = 0 ∧
    clog_filter_record sample_matcher sample_basename 64 CLOG_FILTER_FUNCTION
        (sample_record .INFO 1) sample_view_function [] =
      some ({ sample_view_function with use_log_filter := 4 },
        ["Function filter: wm_file_read is duplicate of filter: wm_file_read"]) ∧
    (4 &&& INFO_FILTER_CLOG_FUNCTION) ≠ 0 := by
  decide

/-- C19, amended: processing a visible selected record for which the mode derives a
criterion (`filter_pattern` gives a pattern: in File mode the basename has a separator
and the text in front of it fits the pattern array) and whose criterion is a duplicate
of an existing entry of the target category leaves the three filter lists as they were
and adds one notice; the enable flags of the verbosity cutoff and of the other
categories are as before, and the enable flag of the target category is turned on,
although no criterion is appended. -/
theorem filter_duplicate_state (mt : Matcher) (path_basename : String → String)
    (search_string_size : Nat) (filter_type : Int) (record : CLG_LogRecord)
    (sinfo : SpaceInfo) (reports : List String) (p : String) (dup : SpaceInfoFilter)
    (hpat : filter_pattern path_basename search_string_size filter_type record = some p)
    (hdup : is_filter_duplicate mt (filter_target_list filter_type sinfo)
      { search_string := p
        flag := INFO_FILTER_USE_MATCH_CASE ||| INFO_FILTER_USE_MATCH_REVERSE } = some dup) :
    ∃ sinfo2 msg,
      clog_filter_record mt path_basename search_string_size filter_type record sinfo
        reports = some (sinfo2, reports ++ [msg]) ∧
      sinfo2.filter_log_type = sinfo.filter_log_type ∧
      sinfo2.filter_log_function = sinfo.filter_log_function ∧
      sinfo2.filter_log_file_line = sinfo.filter_log_file_line ∧
      (sinfo2.use_log_filter &&& filter_enable_flag filter_type) ≠ 0 ∧
      (∀ flag ∈ [INFO_FILTER_CLOG_LEVEL, INFO_FILTER_CLOG_TYPE, INFO_FILTER_CLOG_FUNCTION,
          INFO_FILTER_CLOG_FILE_LINE],
        flag ≠ filter_enable_flag filter_type →
        (sinfo2.use_log_filter &&& flag) = (sinfo.use_log_filter &&& flag)) := by
  obtain ⟨msg, hrec⟩ := clog_filter_record_duplicate mt path_basename search_string_size
    filter_type record sinfo reports p dup hpat hdup
  refine ⟨_, msg, hrec, rfl, rfl, rfl, ?_, ?_⟩
  · show ((sinfo.use_log_filter ||| filter_enable_flag filter_type) &&&
        filter_enable_flag filter_type) ≠ 0
    unfold filter_pattern at hpat
    unfold filter_enable_flag
    by_cases h1 : filter_type = CLOG_FILTER_FILE
    · rw [if_pos h1]; exact or_two_pow_and_self _ 3
    · rw [if_neg h1]
      by_cases h2 : filter_type = CLOG_FILTER_LINE
      · rw [if_pos h2]; exact or_two_pow_and_self _ 3
      · rw [if_neg h2]
        by_cases h3 : filter_type = CLOG_FILTER_FUNCTION
        · rw [if_pos h3]; exact or_two_pow_and_self _ 2
        · rw [if_neg h3]
          by_cases h4 : filter_type = CLOG_FILTER_LOG_TYPE
          · rw [if_pos h4]; exact or_two_pow_and_self _ 1
          · rw [if_neg h1, if_neg h2, if_neg h3, if_neg h4] at hpat
            exact Option.noConfusion hpat
  · intro flag hflag hne
    show ((sinfo.use_log_filter ||| filter_enable_flag filter_type) &&& flag) =
      (sinfo.use_log_filter &&& flag)
    have hcases : ∃ i j : Nat, filter_enable_flag filter_type = 2 ^ i ∧ flag = 2 ^ j := by
      have hf : ∃ j : Nat, flag = 2 ^ j := by
        simp only [List.mem_cons, List.mem_singleton, List.not_mem_nil, or_false] at hflag
        rcases hflag with h | h | h | h
        · exact ⟨0, h⟩
        · exact ⟨1, h⟩
        · exact ⟨2, h⟩
        · exact ⟨3, h⟩
      obtain ⟨j, hj⟩ := hf
      unfold filter_pattern at hpat
      unfold filter_enable_flag
      by_cases h1 : filter_type = CLOG_FILTER_FILE
      · exact ⟨3, j, by rw [if_pos h1]; rfl, hj⟩
      · by_cases h2 : filter_type = CLOG_FILTER_LINE
        · exact ⟨3, j, by rw [if_neg h1, if_pos h2]; rfl, hj⟩
        · by_cases h3 : filter_type = CLOG_FILTER_FUNCTION
          · exact ⟨2, j, by rw [if_neg h1, if_neg h2, if_pos h3]; rfl, hj⟩
          · by_cases h4 : filter_type = CLOG_FILTER_LOG_TYPE
            · exact ⟨1, j, by rw [if_neg h1, if_neg h2, if_neg h3, if_pos h4]; rfl, hj⟩
            · rw [if_neg h1, if_neg h2, if_neg h3, if_neg h4] at hpat
              exact Option.noConfusion hpat
    obtain ⟨i, j, hi, hj⟩ := hcases
    rw [hi, hj] at hne ⊢
    exact or_two_pow_and_other _ i j (fun hij => hne (by rw [hij]))

/-- C19, amended, at a concrete input: the record and view state of the
counterexample. -/
theorem filter_duplicate_state_witness :
    ∃ sinfo2 msg,
      clog_filter_record sample_matcher sample_basename 64 CLOG_FILTER_FUNCTION
        (sample_record .INFO 1) sample_view_function [] = some (sinfo2, [] ++ [msg]) ∧
      sinfo2.filter_log_function = sample_view_function.filter_log_function :=
  let ⟨sinfo2, msg, h1, _, h3, _⟩ :=
    filter_duplicate_state sample_matcher sample_basename 64 CLOG_FILTER_FUNCTION
      (sample_record .INFO 1) sample_view_function [] "wm_file_read"
      { search_string := "wm_file_read", flag := 5 } (by decide) (by decide)
  ⟨sinfo2, msg, h1, h3⟩

/-! ### Selection leaves visibility alone -/

theorem visible_without_flag (mt : Matcher) (r : CLG_LogRecord) (v : SpaceInfo) :
    is_clog_record_visible mt (without_flag r) v = is_clog_record_visible mt r v := rfl

theorem without_flag_select_all_step (mt : Matcher) (v : SpaceInfo) (action : Int)
    (r : CLG_LogRecord) :
    without_flag (select_all_step mt v action r) = without_flag r := by
  unfold select_all_step
  split
  · split
    · rfl
    · split
      · rfl
      · split <;> rfl
  · rfl

theorem without_flag_box_select_step (mt : Matcher) (v : SpaceInfo) (select : Bool)
    (r : CLG_LogRecord) :
    without_flag (box_select_step mt v select r) = without_flag r := by
  unfold box_select_step
  split <;> rfl

theorem without_flag_select_all (mt : Matcher) (records : List CLG_LogRecord)
    (v : SpaceInfo) (action : Int) :
    (log_records_select_all mt records v action).map without_flag =
      records.map without_flag := by
  rw [log_records_select_all_eq_map, List.map_map]
  apply List.map_congr_left
  intro r _
  exact without_flag_select_all_step mt v _ r

theorem without_flag_modify (f : CLG_LogRecord → CLG_LogRecord)
    (hf : ∀ r, without_flag (f r) = without_flag r) (l : List CLG_LogRecord) :
    ∀ n : Nat, (l.modify f n).map without_flag = l.map without_flag := by
  induction l with
  | nil => intro n; cases n <;> rfl
  | cons x rest ih =>
    intro n
    cases n with
    | zero => simp [List.modify, List.modifyHead, hf]
    | succ k =>
      have := ih k
      simp only [List.modify_succ_cons, List.map_cons, this]

theorem without_flag_range_select_next (a : Nat) (l : List CLG_LogRecord) :
    ∀ pos : Nat, (range_select_next a pos l).map without_flag = l.map without_flag := by
  induction l with
  | nil => intro pos; rfl
  | cons x rest ih =>
    intro pos
    unfold range_select_next
    split
    · rfl
    · simp only [List.map_cons, ih]
      rfl

theorem without_flag_range_select_prev (a : Nat) (l : List CLG_LogRecord) :
    ∀ pos : Nat, (range_select_prev a pos l).map without_flag = l.map without_flag := by
  induction l with
  | nil => intro pos; rfl
  | cons x rest ih =>
    intro pos
    unfold range_select_prev
    split
    · rfl
    · simp only [List.map_cons, ih]
      rfl

theorem without_flag_box_select_loop (mt : Matcher) (v : SpaceInfo) (select : Bool)
    (max : Nat) (l : List CLG_LogRecord) :
    ∀ (pos : Nat) (out : List CLG_LogRecord),
      box_select_loop mt v select max pos l = some out →
      out.map without_flag = l.map without_flag := by
  induction l with
  | nil =>
    intro pos out h
    unfold box_select_loop at h
    split at h
    · simp only [Option.some.injEq] at h
      rw [← h]
    · exact Option.noConfusion h
  | cons x rest ih =>
    intro pos out h
    unfold box_select_loop at h
    split at h
    · simp only [Option.some.injEq] at h
      rw [← h]
    · cases htail : box_select_loop mt v select max (pos + 1) rest with
      | none => rw [htail] at h; exact Option.noConfusion h
      | some tail =>
        rw [htail] at h
        simp only [Option.some.injEq] at h
        rw [← h, List.map_cons, List.map_cons, ih (pos + 1) tail htail,
          without_flag_box_select_step]

/-- Two record lists that agree apart from the flag words have the same visibility,
position by position, also under another active index. -/
theorem visible_map_of_without_flag (mt : Matcher) (v : SpaceInfo) (a : Int)
    (l1 l2 : List CLG_LogRecord) (h : l1.map without_flag = l2.map without_flag) :
    l1.map (fun r => is_clog_record_visible mt r { v with active_index := a }) =
      l2.map (fun r => is_clog_record_visible mt r v) := by
  have e1 : l1.map (fun r => is_clog_record_visible mt r { v with active_index := a }) =
      (l1.map without_flag).map (fun r => is_clog_record_visible mt r v) := by
    rw [List.map_map]; rfl
  have e2 : l2.map (fun r => is_clog_record_visible mt r v) =
      (l2.map without_flag).map (fun r => is_clog_record_visible mt r v) := by
    rw [List.map_map]; rfl
  rw [e1, e2, h]

theorem without_flag_pick_work_list (mt : Matcher) (records : List CLG_LogRecord)
    (v : SpaceInfo) (deselect_all : Bool) :
    (if deselect_all = true then log_records_select_all mt records v SEL_DESELECT
      else records).map without_flag = records.map without_flag := by
  cases deselect_all
  · rfl
  · exact without_flag_select_all mt records v SEL_DESELECT

/-- A Pick writes flag words and the active index, nothing else. -/
theorem without_flag_pick (mt : Matcher) (records : List CLG_LogRecord) (sinfo : SpaceInfo)
    (clog_index : Int) (extend use_range deselect_all : Bool) :
    ∃ code out sinfo2,
      select_clog_pick_exec mt records sinfo clog_index extend use_range deselect_all =
        (code, out, sinfo2) ∧
      out.map without_flag = records.map without_flag ∧
      (sinfo2 = sinfo ∨ sinfo2 = { sinfo with active_index := clog_index }) := by
  have hset : ∀ r, without_flag (flag_set r) = without_flag r := fun _ => rfl
  have hclear : ∀ r, without_flag (flag_clear r) = without_flag r := fun _ => rfl
  have hW := without_flag_pick_work_list mt records sinfo deselect_all
  unfold select_clog_pick_exec
  generalize (if deselect_all = true then log_records_select_all mt records sinfo SEL_DESELECT
    else records) = work at hW ⊢
  by_cases h1 : clog_index = INDEX_INVALID
  · rw [if_pos h1]
    exact ⟨_, _, _, rfl, without_flag_select_all mt records sinfo SEL_DESELECT, Or.inl rfl⟩
  · rw [if_neg h1]
    cases hp : BLI_findlink records clog_index with
    | none => exact ⟨_, _, _, rfl, rfl, Or.inl rfl⟩
    | some r =>
      cases ha : BLI_findlink records sinfo.active_index with
      | none =>
        exact ⟨_, _, _, rfl, by rw [without_flag_modify _ hset, hW], Or.inr rfl⟩
      | some ra =>
        by_cases hr : use_range = true
        · by_cases hs : is_selected ra = true
          · by_cases hlt : clog_index < sinfo.active_index
            · simp only [hr, hs, hlt, if_true]
              refine ⟨_, _, _, rfl, ?_, Or.inl rfl⟩
              rw [List.map_append, without_flag_range_select_next, List.map_take,
                List.map_drop, List.take_append_drop, hW]
            · simp only [hr, hs, hlt, if_true, if_false]
              refine ⟨_, _, _, rfl, ?_, Or.inl rfl⟩
              rw [List.map_append, List.map_reverse, without_flag_range_select_prev,
                List.map_reverse, List.reverse_reverse, List.map_take, List.map_drop,
                List.take_append_drop, hW]
          · have hs2 : is_selected ra = false := by simpa using hs
            simp only [hr, hs2, if_true, Bool.false_eq_true, if_false]
            refine ⟨_, _, _, rfl, ?_, Or.inr rfl⟩
            rw [without_flag_modify _ hset, without_flag_select_all, hW]
        · have hr2 : use_range = false := by simpa using hr
          simp only [hr2, Bool.false_eq_true, if_false]
          split
          · exact ⟨_, _, _, rfl, by rw [without_flag_modify _ hclear, hW], Or.inl rfl⟩
          · exact ⟨_, _, _, rfl, by rw [without_flag_modify _ hset, hW], Or.inr rfl⟩

/-- A box select that returns has written flag words, nothing else. -/
theorem without_flag_box_select (mt : Matcher) (records : List CLG_LogRecord)
    (sinfo : SpaceInfo) (sel_op : Int) (pick_min pick_max : Option Nat) (code : Int)
    (out : List CLG_LogRecord)
    (h : box_select_exec mt records sinfo sel_op pick_min pick_max = some (code, out)) :
    out.map without_flag = records.map without_flag := by
  have hW : (if SEL_OP_USE_PRE_DESELECT sel_op = true then box_pre_deselect mt sinfo records
      else records).map without_flag = records.map without_flag := by
    rw [box_work_list_eq_map, List.map_map]
    apply List.map_congr_left
    intro r _
    show without_flag (if sel_op = SEL_OP_SET then _ else r) = without_flag r
    split
    · exact without_flag_select_all_step mt sinfo _ r
    · rfl
  unfold box_select_exec at h
  simp only [] at h
  split at h
  · simp only [Option.some.injEq, Prod.mk.injEq] at h
    rw [← h.2, without_flag_select_all, hW]
  · split at h
    · split at h
      · exact Option.noConfusion h
      · rename_i t b _ _ tail htail
        simp only [Option.some.injEq, Prod.mk.injEq] at h
        rw [← h.2, List.map_append,
          without_flag_box_select_loop mt sinfo _ _ _ _ tail htail, List.map_take,
          List.map_drop, List.take_append_drop, hW]
    · simp only [Option.some.injEq, Prod.mk.injEq] at h
      rw [← h.2, hW]

/-- C22: no selection operation changes which records are visible.
`is_clog_record_visible` gives the same answer whatever the flag word of the record and
the active index of the view state are; and, position by position, the records of the
list have the same visibility after `log_records_select_all`, after
`select_clog_pick_exec` (under the view state it leaves) and after a `box_select_exec`
that returns as they had before the call. -/
theorem selection_keeps_visibility (mt : Matcher) (records : List CLG_LogRecord)
    (sinfo : SpaceInfo) :
    (∀ (r : CLG_LogRecord) (flag : Nat) (a : Int),
      is_clog_record_visible mt { r with flag := flag } { sinfo with active_index := a } =
        is_clog_record_visible mt r sinfo) ∧
    (∀ action : Int,
      (log_records_select_all mt records sinfo action).map
          (fun r => is_clog_record_visible mt r sinfo) =
        records.map (fun r => is_clog_record_visible mt r sinfo)) ∧
    (∀ (clog_index : Int) (extend use_range deselect_all : Bool),
      (select_clog_pick_exec mt records sinfo clog_index extend use_range deselect_all).2.1.map
          (fun r => is_clog_record_visible mt r
            (select_clog_pick_exec mt records sinfo clog_index extend use_range
              deselect_all).2.2) =
        records.map (fun r => is_clog_record_visible mt r sinfo)) ∧
    (∀ (sel_op : Int) (pick_min pick_max : Option Nat) (code : Int)
        (out : List CLG_LogRecord),
      box_select_exec mt records sinfo sel_op pick_min pick_max = some (code, out) →
      out.map (fun r => is_clog_record_visible mt r sinfo) =
        records.map (fun r => is_clog_record_visible mt r sinfo)) := by
  refine ⟨fun _ _ _ => rfl, ?_, ?_, ?_⟩
  · intro action
    exact visible_map_of_without_flag mt sinfo sinfo.active_index _ _
      (without_flag_select_all mt records sinfo action)
  · intro clog_index extend use_range deselect_all
    obtain ⟨code, out, sinfo2, heq, hout, hs⟩ :=
      without_flag_pick mt records sinfo clog_index extend use_range deselect_all
    rw [heq]
    rcases hs with hs | hs
    · rw [hs]
      exact visible_map_of_without_flag mt sinfo sinfo.active_index _ _ hout
    · rw [hs]
      exact visible_map_of_without_flag mt sinfo clog_index _ _ hout
  · intro sel_op pick_min pick_max code out h
    exact visible_map_of_without_flag mt sinfo sinfo.active_index _ _
      (without_flag_box_select mt records sinfo sel_op pick_min pick_max code out h)

/-- C22 at a concrete input: a box select in SUB mode over `sample_gap` returns, and the
visibility of the three records under `sample_view_no_warn` is as before. -/
theorem selection_keeps_visibility_witness :
    [sample_record .INFO 0, sample_record .WARN 0, sample_record .ERROR 0].map
        (fun r => is_clog_record_visible sample_matcher r sample_view_no_warn) =
      sample_gap.map (fun r => is_clog_record_visible sample_matcher r sample_view_no_warn) :=
  (selection_keeps_visibility sample_matcher sample_gap sample_view_no_warn).2.2.2
    SEL_OP_SUB (some 0) (some 2) OPERATOR_FINISHED
    [sample_record .INFO 0, sample_record .WARN 0, sample_record .ERROR 0] (by decide)

/-! ### Function filters -/

/-- A string that fits the array is copied whole. -/
theorem BLI_strncpy_fit (src : String) (maxncpy : Nat) (h : src.length < maxncpy) :
    BLI_strncpy src maxncpy = src := by
  unfold BLI_strncpy
  have hlen : src.data.length ≤ maxncpy - 1 := by
    have : src.length = src.data.length := rfl
    omega
  rw [List.take_of_length_le hlen]

/-- The test of a criterion built by the filter builder: case-sensitive, non-glob,
inverted. -/
theorem filter_matches_built (mt : Matcher) (p target : String) :
    filter_matches mt
        { search_string := p
          flag := INFO_FILTER_USE_MATCH_CASE ||| INFO_FILTER_USE_MATCH_REVERSE } target =
      mt p target true false true := by
  have h1 : (((INFO_FILTER_USE_MATCH_CASE ||| INFO_FILTER_USE_MATCH_REVERSE) &&&
      INFO_FILTER_USE_MATCH_CASE) != 0) = true := by decide
  have h2 : (((INFO_FILTER_USE_MATCH_CASE ||| INFO_FILTER_USE_MATCH_REVERSE) &&&
      INFO_FILTER_USE_GLOB) != 0) = false := by decide
  have h3 : (((INFO_FILTER_USE_MATCH_CASE ||| INFO_FILTER_USE_MATCH_REVERSE) &&&
      INFO_FILTER_USE_MATCH_REVERSE) != 0) = true := by decide
  unfold filter_matches
  simp only [h1, h2, h3]

/-- A visible record passes the function list when the function category is enabled. -/
theorem visible_function_passes (mt : Matcher) (r : CLG_LogRecord) (v : SpaceInfo)
    (hv : is_clog_record_visible mt r v = true)
    (hon : (v.use_log_filter &&& INFO_FILTER_CLOG_FUNCTION) ≠ 0) :
    filter_list_passes mt r.function v.filter_log_function = true := by
  rw [visible_eq] at hv
  simp only [Bool.and_eq_true, Bool.or_eq_true, beq_iff_eq] at hv
  rcases hv.1.2 with h | h
  · exact absurd h hon
  · exact h

/-- A record that fails the function list is hidden when the function category is
enabled. -/
theorem hidden_of_function_fails (mt : Matcher) (r : CLG_LogRecord) (v : SpaceInfo)
    (hon : (v.use_log_filter &&& INFO_FILTER_CLOG_FUNCTION) ≠ 0)
    (hfail : filter_list_passes mt r.function v.filter_log_function = false) :
    is_clog_record_visible mt r v = false := by
  cases hv : is_clog_record_visible mt r v
  · rfl
  · rw [visible_function_passes mt r v hv hon] at hfail
    exact Bool.noConfusion hfail

/-- Turning on the function category with a longer function list hides records, it
shows none. -/
theorem visible_of_visible_function (mt : Matcher) (x : CLG_LogRecord) (v : SpaceInfo)
    (l2 : List SpaceInfoFilter)
    (hl2 : filter_list_passes mt x.function l2 = true →
      filter_list_passes mt x.function v.filter_log_function = true)
    (h : is_clog_record_visible mt x
      { v with
        filter_log_function := l2
        use_log_filter := v.use_log_filter ||| INFO_FILTER_CLOG_FUNCTION } = true) :
    is_clog_record_visible mt x v = true := by
  rw [visible_eq] at h ⊢
  have e1 : ((v.use_log_filter ||| INFO_FILTER_CLOG_FUNCTION) &&& INFO_FILTER_CLOG_LEVEL) =
      (v.use_log_filter &&& INFO_FILTER_CLOG_LEVEL) := or_two_pow_and_other _ 2 0 (by decide)
  have e2 : ((v.use_log_filter ||| INFO_FILTER_CLOG_FUNCTION) &&& INFO_FILTER_CLOG_TYPE) =
      (v.use_log_filter &&& INFO_FILTER_CLOG_TYPE) := or_two_pow_and_other _ 2 1 (by decide)
  have e3 : ((v.use_log_filter ||| INFO_FILTER_CLOG_FUNCTION) &&&
      INFO_FILTER_CLOG_FILE_LINE) = (v.use_log_filter &&& INFO_FILTER_CLOG_FILE_LINE) :=
    or_two_pow_and_other _ 2 3 (by decide)
  have e4 : ((v.use_log_filter ||| INFO_FILTER_CLOG_FUNCTION) &&&
      INFO_FILTER_CLOG_FUNCTION) ≠ 0 := or_two_pow_and_self _ 2
  simp only [e1, e2, e3] at h
  simp only [Bool.and_eq_true, Bool.or_eq_true, beq_iff_eq, e4, false_or] at h ⊢
  obtain ⟨⟨⟨⟨⟨a, b⟩, c⟩, d⟩, e⟩, f⟩ := h
  exact ⟨⟨⟨⟨⟨a, b⟩, c⟩, d⟩, Or.inr (hl2 e)⟩, f⟩

/-- No entry of the list matches the pattern: the duplicate check finds nothing. -/
theorem is_filter_duplicate_none (mt : Matcher) (l : List SpaceInfoFilter)
    (filter : SpaceInfoFilter)
    (h : ∀ e ∈ l, mt e.search_string filter.search_string
      ((e.flag &&& INFO_FILTER_USE_MATCH_CASE) != 0)
      ((e.flag &&& INFO_FILTER_USE_GLOB) != 0) false = false) :
    is_filter_duplicate mt l filter = none := by
  induction l with
  | nil => rfl
  | cons x rest ih =>
    unfold is_filter_duplicate
    rw [h x (List.mem_cons_self x rest)]
    simp only [Bool.false_eq_true, if_false]
    exact ih (fun e he => h e (List.mem_cons_of_mem x he))

/-- One step of the filter loop in Function mode, on a visible record whose function is
not empty and fits the array, from a function list made of built criteria with
non-empty patterns: the criterion is appended without a notice, its pattern is new, the
step shows no record and hides the processed one. -/
theorem function_filter_step (mt : Matcher) (path_basename : String → String)
    (search_string_size : Nat) (r : CLG_LogRecord) (s : SpaceInfo) (reports : List String)
    (hself : ∀ p : String, p ≠ "" → mt p p true false false = true)
    (hinv : ∀ p t : String, p ≠ "" →
      mt p t true false true = !(mt p t true false false))
    (hflags : ∀ e ∈ s.filter_log_function,
      e.flag = INFO_FILTER_USE_MATCH_CASE ||| INFO_FILTER_USE_MATCH_REVERSE ∧
        e.search_string ≠ "")
    (hon : s.filter_log_function ≠ [] →
      (s.use_log_filter &&& INFO_FILTER_CLOG_FUNCTION) ≠ 0)
    (hv : is_clog_record_visible mt r s = true) (hne : r.function ≠ "")
    (hfit : r.function.length < search_string_size) :
    clog_filter_record mt path_basename search_string_size CLOG_FILTER_FUNCTION r s reports =
      some ({ s with
              filter_log_function := s.filter_log_function ++
                [{ search_string := r.function
                   flag := INFO_FILTER_USE_MATCH_CASE ||| INFO_FILTER_USE_MATCH_REVERSE }]
              use_log_filter := s.use_log_filter ||| INFO_FILTER_CLOG_FUNCTION },
            reports) ∧
    r.function ∉ s.filter_log_function.map (fun e => e.search_string) ∧
    (∀ x, is_clog_record_visible mt x
        { s with
          filter_log_function := s.filter_log_function ++
            [{ search_string := r.function
               flag := INFO_FILTER_USE_MATCH_CASE ||| INFO_FILTER_USE_MATCH_REVERSE }]
          use_log_filter := s.use_log_filter ||| INFO_FILTER_CLOG_FUNCTION } = true →
      is_clog_record_visible mt x s = true) ∧
    is_clog_record_visible mt r
        { s with
          filter_log_function := s.filter_log_function ++
            [{ search_string := r.function
               flag := INFO_FILTER_USE_MATCH_CASE ||| INFO_FILTER_USE_MATCH_REVERSE }]
          use_log_filter := s.use_log_filter ||| INFO_FILTER_CLOG_FUNCTION } = false := by
  have hbuilt : ∀ e ∈ s.filter_log_function,
      e = { search_string := e.search_string
            flag := INFO_FILTER_USE_MATCH_CASE ||| INFO_FILTER_USE_MATCH_REVERSE } := by
    intro e he
    have := (hflags e he).1
    cases e
    simp only at this
    rw [this]
  have hnomatch : ∀ e ∈ s.filter_log_function,
      mt e.search_string r.function true false false = false := by
    intro e he
    have hnonempty : s.filter_log_function ≠ [] := List.ne_nil_of_mem he
    have hpass := visible_function_passes mt r s hv (hon hnonempty)
    have hm := (filter_list_passes_iff mt r.function s.filter_log_function).1 hpass e he
    rw [hbuilt e he, filter_matches_built, hinv _ _ (hflags e he).2] at hm
    cases h : mt e.search_string r.function true false false
    · rfl
    · rw [h] at hm; exact Bool.noConfusion hm
  have hdup : is_filter_duplicate mt s.filter_log_function
      { search_string := r.function
        flag := INFO_FILTER_USE_MATCH_CASE ||| INFO_FILTER_USE_MATCH_REVERSE } = none := by
    apply is_filter_duplicate_none
    intro e he
    have h1 : (((INFO_FILTER_USE_MATCH_CASE ||| INFO_FILTER_USE_MATCH_REVERSE) &&&
        INFO_FILTER_USE_MATCH_CASE) != 0) = true := by decide
    have h2 : (((INFO_FILTER_USE_MATCH_CASE ||| INFO_FILTER_USE_MATCH_REVERSE) &&&
        INFO_FILTER_USE_GLOB) != 0) = false := by decide
    rw [(hflags e he).1, h1, h2]
    exact hnomatch e he
  have hbit : ((s.use_log_filter ||| INFO_FILTER_CLOG_FUNCTION) &&&
      INFO_FILTER_CLOG_FUNCTION) ≠ 0 := or_two_pow_and_self _ 2
  have hnew : filter_matches mt
      { search_string := r.function
        flag := INFO_FILTER_USE_MATCH_CASE ||| INFO_FILTER_USE_MATCH_REVERSE } r.function =
      false := by
    rw [filter_matches_built, hinv _ _ hne, hself _ hne]
    rfl
  refine ⟨?_, ?_, ?_, ?_⟩
  · have n1 : ¬ CLOG_FILTER_FUNCTION = CLOG_FILTER_FILE := by decide
    have n2 : ¬ CLOG_FILTER_FUNCTION = CLOG_FILTER_LINE := by decide
    have hpat : filter_pattern path_basename search_string_size CLOG_FILTER_FUNCTION r =
        some r.function := by
      unfold filter_pattern
      simp only [if_neg n1, if_neg n2, if_true, BLI_strncpy_fit _ _ hfit]
    unfold clog_filter_record
    simp only [if_neg n1, if_neg n2, if_true, hpat, hdup]
  · intro hmem
    obtain ⟨e, he, hep⟩ := List.mem_map.1 hmem
    have h1 := hnomatch e he
    rw [hep, hself _ hne] at h1
    exact Bool.noConfusion h1
  · intro x hx
    apply visible_of_visible_function mt x s _ _ hx
    intro hpass
    rw [filter_list_passes_iff] at hpass ⊢
    intro e he
    exact hpass e (List.mem_append_left _ he)
  · apply hidden_of_function_fails mt r _ hbit
    cases hp : filter_list_passes mt r.function
        (s.filter_log_function ++
          [{ search_string := r.function
             flag := INFO_FILTER_USE_MATCH_CASE ||| INFO_FILTER_USE_MATCH_REVERSE }])
    · rfl
    · have := (filter_list_passes_iff mt r.function _).1 hp
        { search_string := r.function
          flag := INFO_FILTER_USE_MATCH_CASE ||| INFO_FILTER_USE_MATCH_REVERSE }
        (List.mem_append_right _ (List.mem_singleton_self _))
      rw [hnew] at this
      exact Bool.noConfusion this

/-- The filter loop in Function mode, from a function list made of built criteria with
non-empty, pairwise distinct patterns, over records whose function is not empty and
fits the array whenever they are visible and selected: the loop ends without a notice,
the function list keeps its shape, no record becomes visible, and every record of the
list that was visible and selected is hidden at the end. -/
theorem function_filter_loop (mt : Matcher) (path_basename : String → String)
    (search_string_size : Nat) (reports : List String)
    (hself : ∀ p : String, p ≠ "" → mt p p true false false = true)
    (hinv : ∀ p t : String, p ≠ "" →
      mt p t true false true = !(mt p t true false false))
    (l : List CLG_LogRecord) :
    ∀ s : SpaceInfo,
      (∀ e ∈ s.filter_log_function,
        e.flag = INFO_FILTER_USE_MATCH_CASE ||| INFO_FILTER_USE_MATCH_REVERSE ∧
          e.search_string ≠ "") →
      (s.filter_log_function.map (fun e => e.search_string)).Nodup →
      (s.filter_log_function ≠ [] →
        (s.use_log_filter &&& INFO_FILTER_CLOG_FUNCTION) ≠ 0) →
      (∀ r ∈ l, is_clog_record_visible mt r s = true → is_selected r = true →
        r.function ≠ "" ∧ r.function.length < search_string_size) →
      ∃ s2,
        clog_filter_loop mt path_basename search_string_size CLOG_FILTER_FUNCTION l s
          reports = some (s2, reports) ∧
        (∀ e ∈ s2.filter_log_function,
          e.flag = INFO_FILTER_USE_MATCH_CASE ||| INFO_FILTER_USE_MATCH_REVERSE ∧
            e.search_string ≠ "") ∧
        (s2.filter_log_function.map (fun e => e.search_string)).Nodup ∧
        (∀ x, is_clog_record_visible mt x s2 = true → is_clog_record_visible mt x s = true) ∧
        (∀ r ∈ l, is_clog_record_visible mt r s = true → is_selected r = true →
          is_clog_record_visible mt r s2 = false) := by
  induction l with
  | nil =>
    intro s hflags hnodup _ _
    exact ⟨s, rfl, hflags, hnodup, fun _ h => h, fun r hr => absurd hr (List.not_mem_nil r)⟩
  | cons r rest ih =>
    intro s hflags hnodup hon hfit
    by_cases hc : (is_clog_record_visible mt r s && is_selected r) = true
    · have hv : is_clog_record_visible mt r s = true := (Bool.and_eq_true _ _ ▸ hc).1
      have hsel : is_selected r = true := (Bool.and_eq_true _ _ ▸ hc).2
      obtain ⟨hne, hlen⟩ := hfit r (List.mem_cons_self r rest) hv hsel
      obtain ⟨hstep, hnew, hmono, hhid⟩ := function_filter_step mt path_basename
        search_string_size r s reports hself hinv hflags hon hv hne hlen
      obtain ⟨s2, hloop, hflags2, hnodup2, hmono2, hhid2⟩ := ih
        { s with
          filter_log_function := s.filter_log_function ++
            [{ search_string := r.function
               flag := INFO_FILTER_USE_MATCH_CASE ||| INFO_FILTER_USE_MATCH_REVERSE }]
          use_log_filter := s.use_log_filter ||| INFO_FILTER_CLOG_FUNCTION }
        (by
          intro e he
          rcases List.mem_append.1 he with h | h
          · exact hflags e h
          · rw [List.mem_singleton.1 h]
            exact ⟨rfl, hne⟩)
        (by
          show (List.map (fun e => e.search_string) (s.filter_log_function ++ _)).Nodup
          rw [List.map_append, List.nodup_append]
          refine ⟨hnodup, List.nodup_singleton _, ?_⟩
          intro a ha hb
          rw [List.map_singleton, List.mem_singleton] at hb
          rw [hb] at ha
          exact hnew ha)
        (fun _ => or_two_pow_and_self _ 2)
        (fun x hx hxv hxs => hfit x (List.mem_cons_of_mem r hx) (hmono x hxv) hxs)
      refine ⟨s2, ?_, hflags2, hnodup2, fun x hx => hmono x (hmono2 x hx), ?_⟩
      · rw [clog_filter_loop, hc]
        simp only [if_true, hstep]
        exact hloop
      · intro x hx hxv hxs
        cases hx2 : is_clog_record_visible mt x s2
        · rfl
        · have hx1 := hmono2 x hx2
          rcases List.mem_cons.1 hx with h | h
          · rw [h, hhid] at hx1
            exact Bool.noConfusion hx1
          · rw [hhid2 x h hx1 hxs] at hx2
            exact Bool.noConfusion hx2
    · obtain ⟨s2, hloop, hflags2, hnodup2, hmono2, hhid2⟩ := ih s hflags hnodup hon
        (fun x hx hxv hxs => hfit x (List.mem_cons_of_mem r hx) hxv hxs)
      refine ⟨s2, ?_, hflags2, hnodup2, hmono2, ?_⟩
      · rw [clog_filter_loop, if_neg hc]
        exact hloop
      · intro x hx hxv hxs
        rcases List.mem_cons.1 hx with h | h
        · rw [h] at hxv hxs
          rw [hxv, hxs] at hc
          exact absurd rfl hc
        · exact hhid2 x h hxv hxs

/-- Both sample matchers match a non-empty string against itself; `strict_matcher`
negates under invert in every case, `sample_matcher` for every non-empty pattern. -/
theorem sample_matchers_assumptions :
    (∀ p : String, p ≠ "" → sample_matcher p p true false false = true) ∧
    (∀ p t : String, p ≠ "" →
      sample_matcher p t true false true = !(sample_matcher p t true false false)) ∧
    (∀ p : String, p ≠ "" → strict_matcher p p true false false = true) ∧
    (∀ (p t : String) (c g : Bool),
      strict_matcher p t c g true = !(strict_matcher p t c g false)) := by
  refine ⟨?_, ?_, ?_, ?_⟩
  · intro p hp
    simp [sample_matcher, hp]
  · intro p t hp
    simp [sample_matcher, hp]
  · intro p hp
    simp [strict_matcher, hp]
  · intro p t c g
    unfold strict_matcher
    cases (p != "" && p == t) <;> rfl

/-- C21, as stated, fails on records whose function field is empty. From
`sample_view`, whose function list is empty, Function mode on two visible selected
records with an empty function appends the pattern `""` for the first and, under
`sample_matcher` (an empty pattern matches everything), reports the second as a
duplicate: a duplicate notice is emitted. Under `strict_matcher` (invert negates in
every case) the second record is appended as well: two appended entries have the same
pattern. -/
theorem function_filter_counterexample :
    clog_filter_exec sample_matcher sample_basename 64 CLOG_FILTER_FUNCTION
        sample_no_function sample_view [] =
      some (OPERATOR_FINISHED,
        { sample_view with
          filter_log_function := [{ search_string := "", flag := 5 }]
          use_log_filter := 4 },
        ["Function filter:  is duplicate of filter: "]) ∧
    clog_filter_exec strict_matcher sample_basename 64 CLOG_FILTER_FUNCTION
        sample_no_function sample_view_strict [] =
      some (OPERATOR_FINISHED,
        { sample_view_strict with
          filter_log_function :=
            [{ search_string := "", flag := 5 }, { search_string := "", flag := 5 }]
          use_log_filter := 4 },
        []) := by
  decide

/-- A function name that does not fit the pattern array is cut: with an array of 64
characters the criterion of `sample_long_function`, whose function has 70 characters,
holds the first 63, and under `sample_matcher` the record is still visible after
`clog_filter_exec`. -/
theorem function_filter_truncated :
    clog_filter_exec sample_matcher sample_basename 64 CLOG_FILTER_FUNCTION
        [sample_long_function] sample_view [] =
      some (OPERATOR_FINISHED,
        { sample_view with
          filter_log_function :=
            [{ search_string :=
                 "wm_operator_with_a_rather_long_name_that_does_not_fit_the_patte"
               flag := 5 }]
          use_log_filter := 4 },
        []) ∧
    is_clog_record_visible sample_matcher sample_long_function
        { sample_view with
          filter_log_function :=
            [{ search_string :=
                 "wm_operator_with_a_rather_long_name_that_does_not_fit_the_patte"
               flag := 5 }]
          use_log_filter := 4 } = true := by
  decide

/-- C21, amended: starting from a view state whose function list is empty, with a
string matcher that matches a non-empty string against itself (case-sensitive,
non-glob) and whose invert argument negates the result for a non-empty pattern, and
with every record that is visible and selected before the call having a function field
that is not empty and fits the pattern array (so that it is copied whole):
`clog_filter_exec` in Function mode returns FINISHED, every record that was visible and
selected before the call is no longer visible, every entry of the function list has the
case-sensitive flag set, the glob flag clear and the invert flag set, no two entries
have the same pattern, and no notice is emitted. -/
theorem function_filter_hides (mt : Matcher) (path_basename : String → String)
    (search_string_size : Nat) (records : List CLG_LogRecord) (sinfo : SpaceInfo)
    (reports : List String)
    (hempty : sinfo.filter_log_function = [])
    (hself : ∀ p : String, p ≠ "" → mt p p true false false = true)
    (hinv : ∀ p t : String, p ≠ "" →
      mt p t true false true = !(mt p t true false false))
    (hfit : ∀ r ∈ records, is_clog_record_visible mt r sinfo = true →
      is_selected r = true →
      r.function ≠ "" ∧ r.function.length < search_string_size) :
    ∃ sinfo2,
      clog_filter_exec mt path_basename search_string_size CLOG_FILTER_FUNCTION records
        sinfo reports = some (OPERATOR_FINISHED, sinfo2, reports) ∧
      (∀ r ∈ records, is_clog_record_visible mt r sinfo = true → is_selected r = true →
        is_clog_record_visible mt r sinfo2 = false) ∧
      (∀ e ∈ sinfo2.filter_log_function,
        (e.flag &&& INFO_FILTER_USE_MATCH_CASE) ≠ 0 ∧
        (e.flag &&& INFO_FILTER_USE_GLOB) = 0 ∧
        (e.flag &&& INFO_FILTER_USE_MATCH_REVERSE) ≠ 0) ∧
      (sinfo2.filter_log_function.map (fun e => e.search_string)).Nodup := by
  obtain ⟨s2, hloop, hflags, hnodup, _, hhid⟩ := function_filter_loop mt path_basename
    search_string_size reports hself hinv records sinfo
    (by rw [hempty]; intro e he; exact absurd he (List.not_mem_nil e))
    (by rw [hempty]; exact List.nodup_nil)
    (fun h => absurd hempty h)
    hfit
  refine ⟨s2, ?_, hhid, ?_, hnodup⟩
  · unfold clog_filter_exec
    rw [hloop]
  · intro e he
    rw [(hflags e he).1]
    decide

/-- C21, amended, at a concrete input: Function mode on `sample_triple` from
`sample_view` under `sample_matcher`. -/
theorem function_filter_hides_witness :
    ∃ sinfo2,
      clog_filter_exec sample_matcher sample_basename 64 CLOG_FILTER_FUNCTION sample_triple
        sample_view [] = some (OPERATOR_FINISHED, sinfo2, []) ∧
      (sinfo2.filter_log_function.map (fun e => e.search_string)).Nodup :=
  let ⟨sinfo2, h1, _, _, h4⟩ :=
    function_filter_hides sample_matcher sample_basename 64 sample_triple sample_view []
      rfl sample_matchers_assumptions.1 sample_matchers_assumptions.2.1
      (fun r hr _ _ => by
        have h : r.function = "wm_file_read" := by
          simp only [sample_triple, List.mem_cons, List.mem_singleton, List.not_mem_nil,
            or_false] at hr
          rcases hr with h | h | h <;> rw [h] <;> rfl
        rw [h]
        exact ⟨by decide, by decide⟩)
  ⟨sinfo2, h1, h4⟩

end InfoClog
